import Mathlib

/-!
Shallow embedding of the solsys gravitational sandbox (src/main.rs, src/movable.rs).

Scalars are modelled by the real numbers; the source's f32 arithmetic is idealized as
exact real arithmetic.  Rendering-only data (colors, names, draw code, trail samples)
is omitted.  Rc<RefCell<CelestialBody>> references are modelled as indices into the
world's body list, so shared mutation becomes explicit state passing.  glam vector
operations (normalize, length, angle_between, perp) are translated from their glam
definitions.
-/

set_option maxHeartbeats 1000000

noncomputable section

/-- 2D vector, modelling glam's Vec2 over the reals. -/
@[ext]
structure Vec2 where
  x : ℝ
  y : ℝ

namespace Vec2

instance : Zero Vec2 := ⟨⟨0, 0⟩⟩
instance : Add Vec2 := ⟨fun a b => ⟨a.x + b.x, a.y + b.y⟩⟩
instance : Sub Vec2 := ⟨fun a b => ⟨a.x - b.x, a.y - b.y⟩⟩
instance : Neg Vec2 := ⟨fun a => ⟨-a.x, -a.y⟩⟩
instance : SMul ℝ Vec2 := ⟨fun c a => ⟨c * a.x, c * a.y⟩⟩

@[simp] lemma zero_x : (0 : Vec2).x = 0 := rfl
@[simp] lemma zero_y : (0 : Vec2).y = 0 := rfl
@[simp] lemma add_x (a b : Vec2) : (a + b).x = a.x + b.x := rfl
@[simp] lemma add_y (a b : Vec2) : (a + b).y = a.y + b.y := rfl
@[simp] lemma sub_x (a b : Vec2) : (a - b).x = a.x - b.x := rfl
@[simp] lemma sub_y (a b : Vec2) : (a - b).y = a.y - b.y := rfl
@[simp] lemma neg_x (a : Vec2) : (-a).x = -a.x := rfl
@[simp] lemma neg_y (a : Vec2) : (-a).y = -a.y := rfl
@[simp] lemma smul_x (c : ℝ) (a : Vec2) : (c • a).x = c * a.x := rfl
@[simp] lemma smul_y (c : ℝ) (a : Vec2) : (c • a).y = c * a.y := rfl

/-- glam Vec2::dot. -/
def dot (a b : Vec2) : ℝ := a.x * b.x + a.y * b.y

/-- glam Vec2::perp_dot. -/
def perp_dot (a b : Vec2) : ℝ := a.x * b.y - a.y * b.x

/-- glam Vec2::length_squared. -/
def length_squared (a : Vec2) : ℝ := a.x * a.x + a.y * a.y

/-- glam Vec2::length. -/
def length (a : Vec2) : ℝ := Real.sqrt a.length_squared

/-- glam Vec2::normalize: self scaled by the reciprocal of its length. -/
def normalize (a : Vec2) : Vec2 := (1 / a.length) • a

/-- glam Vec2::perp (counterclockwise perpendicular). -/
def perp (a : Vec2) : Vec2 := ⟨-a.y, a.x⟩

/-- glam Vec2::distance_squared(self, rhs) = (self - rhs).length_squared(). -/
def distance_squared (a b : Vec2) : ℝ := (a - b).length_squared

/-- glam Vec2::angle_between(self, rhs): acos of the normalized dot product, negated
when the perp-dot product is negative. -/
def angle_between (a b : Vec2) : ℝ :=
  let angle := Real.arccos (a.dot b / Real.sqrt (a.length_squared * b.length_squared))
  if a.perp_dot b < 0 then -angle else angle

end Vec2

/-- Kinematic state with one-slot checkpoint (src/movable.rs). -/
structure Movable where
  pos : Vec2
  vel : Vec2
  mass : ℝ
  rot : ℝ
  store : Vec2 × Vec2 × ℝ

namespace Movable

/-- Movable::new: the checkpoint slot is created already holding the initial triple. -/
def new (pos vel : Vec2) (mass rot : ℝ) : Movable :=
  ⟨pos, vel, mass, rot, (pos, vel, rot)⟩

/-- Movable::save. -/
def save (m : Movable) : Movable := { m with store := (m.pos, m.vel, m.rot) }

/-- Movable::load. -/
def load (m : Movable) : Movable :=
  { m with pos := m.store.1, vel := m.store.2.1, rot := m.store.2.2 }

/-- Movable::update: pos += vel * dt. -/
def update (m : Movable) (dt : ℝ) : Movable := { m with pos := m.pos + dt • m.vel }

end Movable

/-- Gravitational constant G (src/main.rs). -/
def G : ℝ := 50

/-- SHIP_SIZE constant. -/
def SHIP_SIZE : ℝ := 10

/-- SHIP_ACCELERATION constant. -/
def SHIP_ACCELERATION : ℝ := 10

/-- SHIP_ROT_SPEED constant (degrees per second). -/
def SHIP_ROT_SPEED : ℝ := 90

/-- PHYSICS_STEP constant (0.02). -/
def PHYSICS_STEP : ℝ := 1 / 50

/-- TERMINAL_VELOCITY constant. -/
def TERMINAL_VELOCITY : ℝ := 30

/-- MAJOR_CB_HILL_RADIUS_COEFICIENT constant. -/
def MAJOR_CB_HILL_RADIUS_COEFICIENT : ℝ := 3

/-- Rust f32::to_radians: degrees times pi over 180. -/
def to_radians (x : ℝ) : ℝ := x * Real.pi / 180

/-- Sign-truncation toward zero, as used by Rust's floating remainder. -/
def truncR (z : ℝ) : ℝ := if 0 ≤ z then (⌊z⌋ : ℤ) else (⌈z⌉ : ℤ)

/-- Rust's % on floats: remainder with the sign of the dividend,
x % y = x - y * trunc(x / y). -/
def rustRem (x y : ℝ) : ℝ := x - y * truncR (x / y)

/-- rotate_vec2_by_rad (src/main.rs). -/
def rotate_vec2_by_rad (v : Vec2) (rad : ℝ) : Vec2 :=
  ⟨Real.cos rad * v.x - Real.sin rad * v.y, Real.sin rad * v.x + Real.cos rad * v.y⟩

/-- gravity_vel (src/main.rs): pairwise Newtonian velocity deltas for one step. -/
def gravity_vel (a_pos : Vec2) (a_mass : ℝ) (b_pos : Vec2) (b_mass : ℝ) (dt : ℝ) :
    Vec2 × Vec2 :=
  let distance_vector := a_pos - b_pos
  let force_vec := distance_vector.normalize
  let distance_length := distance_vector.length_squared
  (-(b_mass * G / distance_length * dt) • force_vec,
    (a_mass * G / distance_length * dt) • force_vec)

/-- Partiality-tracking division: division by zero is undefined (models the fact that
the f32 expression produces no meaningful number there). -/
def divP (a b : ℝ) : Option ℝ := if b = 0 then none else some (a / b)

/-- Partiality-tracking normalize: normalizing the zero vector is undefined. -/
def normalizeP (v : Vec2) : Option Vec2 :=
  if v.length_squared = 0 then none else some v.normalize

/-- gravity_vel with its two genuinely partial operations (normalizing a zero vector,
dividing by a zero squared distance) tracked in Option; the code itself contains no
guard, so this is the same expression with the partiality made explicit. -/
def gravity_velP (a_pos : Vec2) (a_mass : ℝ) (b_pos : Vec2) (b_mass : ℝ) (dt : ℝ) :
    Option (Vec2 × Vec2) :=
  let distance_vector := a_pos - b_pos
  (normalizeP distance_vector).bind fun force_vec =>
    (divP (b_mass * G) distance_vector.length_squared).bind fun ka =>
      (divP (a_mass * G) distance_vector.length_squared).map fun kb =>
        (-(ka * dt) • force_vec, (kb * dt) • force_vec)

/-- point_in_circle (src/main.rs): strict squared-distance comparison. -/
def point_in_circle (point circle : Vec2) (radius : ℝ) : Prop :=
  Vec2.distance_squared circle point < radius ^ 2

instance (point circle : Vec2) (radius : ℝ) : Decidable (point_in_circle point circle radius) := by
  unfold point_in_circle; infer_instance

/-- Real cube root (f32::cbrt), odd-symmetric. -/
def rcbrt (x : ℝ) : ℝ :=
  if 0 ≤ x then x ^ ((1 : ℝ) / 3) else -((-x) ^ ((1 : ℝ) / 3))

/-- calculate_hill_radius (src/main.rs). -/
def calculate_hill_radius (parent_pos : Vec2) (parent_mass : ℝ) (child_pos : Vec2)
    (child_mass : ℝ) : ℝ :=
  let a := (child_pos - parent_pos).length
  a * rcbrt (child_mass / (3 * parent_mass))

/-- get_initial_position_and_velocity (src/main.rs). -/
def get_initial_position_and_velocity (parent_mass distance angle : ℝ) : Vec2 × Vec2 :=
  let delta_vector := rotate_vec2_by_rad ⟨distance, 0⟩ (to_radians angle)
  let speed := Real.sqrt (parent_mass / distance * G)
  (delta_vector, speed • delta_vector.perp.normalize)

/-- CelestialBodyType (display category). -/
inductive CelestialBodyType
  | Star
  | Planet
  | Moon
  | Asteroid
deriving DecidableEq

/-- CelestialBody (src/main.rs); color and name are rendering-only and omitted. -/
structure CelestialBody where
  mov : Movable
  radius : ℝ
  cb_type : CelestialBodyType
  hill_radius : ℝ

namespace CelestialBody

/-- CelestialBody::from_parent.  Note the source passes `mov.pos + pos` — the already
parent-offset position plus the offset again — as the child position argument of
calculate_hill_radius. -/
def from_parent (parent : CelestialBody) (distance angle mass radius : ℝ)
    (cb_type : CelestialBodyType) : CelestialBody :=
  let pv := get_initial_position_and_velocity parent.mov.mass distance angle
  let mov := Movable.new (parent.mov.pos + pv.1) (parent.mov.vel + pv.2) mass 0
  { mov := mov
    radius := radius
    cb_type := cb_type
    hill_radius := calculate_hill_radius parent.mov.pos parent.mov.mass (mov.pos + pv.1) mov.mass }

/-- CelestialBody::pos_in_hill_radius: asteroids use the raw hill radius, major bodies
the enlarged one. -/
def pos_in_hill_radius (b : CelestialBody) (pos : Vec2) : Prop :=
  let hr := match b.cb_type with
    | CelestialBodyType.Asteroid => b.hill_radius
    | _ => b.hill_radius * MAJOR_CB_HILL_RADIUS_COEFICIENT
  point_in_circle pos b.mov.pos hr

instance (b : CelestialBody) (pos : Vec2) : Decidable (b.pos_in_hill_radius pos) := by
  unfold pos_in_hill_radius; infer_instance

/-- GameObject::update for CelestialBody. -/
def update (b : CelestialBody) (dt : ℝ) : CelestialBody := { b with mov := b.mov.update dt }

end CelestialBody

/-- apply_gravity_asteroids (src/main.rs): each asteroid is pulled only by the one
designated parent, which is only read (immutable borrow in the source). -/
def apply_gravity_asteroids : List CelestialBody → CelestialBody → ℝ → List CelestialBody
  | [], _, _ => []
  | a :: rest, parent, dt =>
      { a with mov := { a.mov with
          vel := a.mov.vel +
            (gravity_vel a.mov.pos a.mov.mass parent.mov.pos parent.mov.mass dt).1 } }
        :: apply_gravity_asteroids rest parent dt

/-- Ship flight state; the Rc body reference in Landed is modelled as an index. -/
inductive ShipState
  | InSpace
  | Landed (cb : ℕ) (takeoff_vel : Vec2)
  | Destroyed

/-- Ship (src/main.rs); in_hill_radius_of holds indices into the world's body list. -/
structure Ship where
  mov : Movable
  state : ShipState
  store : ShipState
  fuel : ℝ
  max_fuel : ℝ
  in_hill_radius_of : List ℕ

/-- Default body value used for out-of-range index reads (unreachable in the source,
where the indices are Rc references); chosen as a fixed point of save and load. -/
def defaultBody : CelestialBody :=
  { mov := Movable.new 0 0 0 0, radius := 0, cb_type := CelestialBodyType.Asteroid,
    hill_radius := 0 }

/-- Dereference a body index. -/
def getB (L : List CelestialBody) (i : ℕ) : CelestialBody := L.getD i defaultBody

namespace Ship

/-- Ship::new. -/
def new (pos vel : Vec2) (fuel : ℝ) : Ship :=
  { mov := Movable.new pos vel 1 0, state := ShipState.InSpace, store := ShipState.InSpace,
    fuel := fuel, max_fuel := fuel, in_hill_radius_of := [] }

/-- Ship::save. -/
def save (s : Ship) : Ship := { s with mov := s.mov.save, store := s.state }

/-- Ship::load: mem::replace leaves InSpace in the store slot. -/
def load (s : Ship) : Ship :=
  { s with state := s.store, store := ShipState.InSpace, mov := s.mov.load }

/-- Ship::throttle_up. -/
def throttle_up (s : Ship) (dt : ℝ) : Ship :=
  if s.fuel ≤ 0 then s
  else
    let vel := (SHIP_ACCELERATION * dt / s.mov.mass) • rotate_vec2_by_rad ⟨1, 0⟩ s.mov.rot
    let s1 := match s.state with
      | ShipState.InSpace => { s with mov := { s.mov with vel := s.mov.vel + vel } }
      | ShipState.Landed cb tv => { s with state := ShipState.Landed cb (tv + vel) }
      | ShipState.Destroyed => s
    { s1 with fuel := s1.fuel - max (SHIP_ACCELERATION * dt) 0 }

/-- Ship::turn_left. -/
def turn_left (s : Ship) (dt : ℝ) : Ship :=
  { s with mov := { s.mov with rot := s.mov.rot - to_radians SHIP_ROT_SPEED * dt } }

/-- Ship::turn_right. -/
def turn_right (s : Ship) (dt : ℝ) : Ship :=
  { s with mov := { s.mov with rot := s.mov.rot + to_radians SHIP_ROT_SPEED * dt } }

/-- Ship::land. -/
def land (s : Ship) (i : ℕ) (L : List CelestialBody) : Ship :=
  let cb := getB L i
  let rot := -((s.mov.pos - cb.mov.pos).angle_between ⟨1, 0⟩)
  if |rustRem s.mov.rot (to_radians 360) - rot| > to_radians 30 ∨
      (s.mov.vel - cb.mov.vel).length_squared > TERMINAL_VELOCITY ^ 2 then
    { s with state := ShipState.Destroyed }
  else
    { s with mov := { s.mov with rot := rot }, fuel := s.max_fuel,
             state := ShipState.Landed i 0 }

/-- Ship::takeoff. -/
def takeoff (s : Ship) (takeoff_vel : Vec2) : Ship :=
  { s with state := ShipState.InSpace, mov := { s.mov with vel := s.mov.vel + takeoff_vel } }

/-- Ship::check_collision: one-step-ahead point-in-circle test. -/
def check_collision (s : Ship) (vel : Vec2) (cb : CelestialBody) (dt : ℝ) : Prop :=
  let m := { s.mov with vel := s.mov.vel + vel }
  let m2 := m.update dt
  point_in_circle m2.pos cb.mov.pos (cb.radius + SHIP_SIZE / 2)

instance (s : Ship) (vel : Vec2) (cb : CelestialBody) (dt : ℝ) :
    Decidable (s.check_collision vel cb dt) := by
  unfold check_collision; infer_instance

/-- One step of the InSpace scan in Ship::process_collision: a one-step-ahead hit
calls land. -/
def pcStep (L : List CelestialBody) (dt : ℝ) (s : Ship) (i : ℕ) : Ship :=
  if s.check_collision 0 (getB L i) dt then s.land i L else s

/-- Ship::process_collision over the body indices idxs of the list L; the match is on
the state cloned at entry, and the InSpace scan does not stop at the first hit. -/
def process_collision (s : Ship) (idxs : List ℕ) (L : List CelestialBody) (dt : ℝ) : Ship :=
  match s.state with
  | ShipState.InSpace => idxs.foldl (pcStep L dt) s
  | ShipState.Landed i tv =>
      if ¬ s.check_collision tv (getB L i) dt then s.takeoff tv else s
  | ShipState.Destroyed => s

/-- One step of the influencer scan in Ship::apply_gravity: a dominating body is
pushed onto the influencer list and mutually exchanges a gravity kick with the ship. -/
def agStep (dt : ℝ) (p : Ship × List CelestialBody) (i : ℕ) : Ship × List CelestialBody :=
  if (getB p.2 i).pos_in_hill_radius p.1.mov.pos then
    let cb := getB p.2 i
    let gv := gravity_vel p.1.mov.pos p.1.mov.mass cb.mov.pos cb.mov.mass dt
    ({ p.1 with in_hill_radius_of := p.1.in_hill_radius_of ++ [i],
                mov := { p.1.mov with vel := p.1.mov.vel + gv.1 } },
     p.2.set i { cb with mov := { cb.mov with vel := cb.mov.vel + gv.2 } })
  else p

/-- Ship::apply_gravity over the body indices idxs of the list L.  A landed ship
copies its anchor's velocity; otherwise the influencer list is rebuilt and gravity is
mutual with every body whose (scoped) hill sphere contains the ship. -/
def apply_gravity (s : Ship) (idxs : List ℕ) (L : List CelestialBody) (dt : ℝ) :
    Ship × List CelestialBody :=
  match s.state with
  | ShipState.Landed i _ =>
      ({ s with mov := { s.mov with vel := (getB L i).mov.vel } }, L)
  | _ => idxs.foldl (agStep dt) ({ s with in_hill_radius_of := [] }, L)

/-- GameObject::update for Ship. -/
def update (s : Ship) (dt : ℝ) : Ship := { s with mov := s.mov.update dt }

end Ship

/-- One unordered pair of the all-pairs update in apply_gravity_to_celestial_bodies:
body a's delta is accumulated first, then body b's. -/
def agcb_pair (L : List CelestialBody) (a b : ℕ) (dt : ℝ) : List CelestialBody :=
  let A := getB L a
  let gv := gravity_vel A.mov.pos A.mov.mass (getB L b).mov.pos (getB L b).mov.mass dt
  let L1 := L.set a { A with mov := { A.mov with vel := A.mov.vel + gv.1 } }
  let B := getB L1 b
  L1.set b { B with mov := { B.mov with vel := B.mov.vel + gv.2 } }

/-- Inner loop of apply_gravity_to_celestial_bodies: pair index a with each j of js. -/
def agcb_inner (a : ℕ) (js : List ℕ) (L : List CelestialBody) (dt : ℝ) : List CelestialBody :=
  js.foldl (fun L j => agcb_pair L a j dt) L

/-- apply_gravity_to_celestial_bodies (src/main.rs): all pairs i < j of the given
index list, each applied exactly once. -/
def apply_gravity_to_celestial_bodies : List ℕ → List CelestialBody → ℝ → List CelestialBody
  | [], L, _ => L
  | i :: rest, L, dt => apply_gravity_to_celestial_bodies rest (agcb_inner i rest L dt) dt

/-- The live world: the single ship plus the registry of bodies. -/
structure World where
  ship : Ship
  bodies : List CelestialBody

/-- GameObject updates for the bodies at the given indices. -/
def updateBodiesAt (idxs : List ℕ) (L : List CelestialBody) (dt : ℝ) : List CelestialBody :=
  idxs.foldl (fun L i => L.set i ((getB L i).update dt)) L

/-- Checkpoint a body's kinematics (cb.mov.save in the source). -/
def bodySave (b : CelestialBody) : CelestialBody := { b with mov := b.mov.save }

/-- Restore a body's kinematics (cb.mov.load in the source). -/
def bodyLoad (b : CelestialBody) : CelestialBody := { b with mov := b.mov.load }

/-- mov.save for the bodies at the given indices. -/
def saveBodiesAt (idxs : List ℕ) (L : List CelestialBody) : List CelestialBody :=
  idxs.foldl (fun L i => L.set i (bodySave (getB L i))) L

/-- mov.load for the bodies at the given indices. -/
def loadBodiesAt (idxs : List ℕ) (L : List CelestialBody) : List CelestialBody :=
  idxs.foldl (fun L i => L.set i (bodyLoad (getB L i))) L

/-- Gravity + integration phase of one live physics tick (main loop, before the
collision pass); minor bodies are not present in the modelled world. -/
def liveTickMid (w : World) (dt : ℝ) : World :=
  let allIdx := List.range w.bodies.length
  let L1 := apply_gravity_to_celestial_bodies allIdx w.bodies dt
  let p := w.ship.apply_gravity allIdx L1 dt
  let L3 := updateBodiesAt allIdx p.2 dt
  { ship := p.1.update dt, bodies := L3 }

/-- One full live physics tick: gravity, integration, then the collision pass. -/
def liveTick (w : World) (dt : ℝ) : World :=
  let m := liveTickMid w dt
  { ship := m.ship.process_collision (List.range w.bodies.length) m.bodies dt,
    bodies := m.bodies }

/-- The predictor's collision scan: first captured body whose one-step-ahead test
(at PHYSICS_STEP) fires. -/
def findHit (s : Ship) (L : List CelestialBody) : List ℕ → Option ℕ
  | [] => none
  | i :: rest =>
      if s.check_collision 0 (getB L i) PHYSICS_STEP then some i else findHit s L rest

/-- One iteration of the predictor rollout (simulate_hill_radius loop body); the Bool
records whether the early-impact exit fired. -/
def simStep (captured : List ℕ) (dt : ℝ) (p : Ship × List CelestialBody) :
    (Ship × List CelestialBody) × Bool :=
  let L1 := apply_gravity_to_celestial_bodies captured p.2 dt
  let q := p.1.apply_gravity captured L1 dt
  let L3 := updateBodiesAt captured q.2 dt
  let s2 := q.1.update dt
  match s2.state with
  | ShipState.InSpace =>
      match findHit s2 L3 captured with
      | some j => (({ s2 with state := ShipState.Landed j 0 }, L3), true)
      | none => ((s2, L3), false)
  | _ => ((s2, L3), false)

/-- The predictor rollout loop, stopping early on a predicted impact. -/
def simLoop (captured : List ℕ) (dt : ℝ) : ℕ → Ship × List CelestialBody → Ship × List CelestialBody
  | 0, p => p
  | n + 1, p =>
      let q := simStep captured dt p
      if q.2 then q.1 else simLoop captured dt n q.1

/-- simulate_hill_radius (src/main.rs) for the single ship: capture the influencer
set, checkpoint ship and captured bodies, roll out, and restore on every exit path.
The sampled trail is rendering output and not modelled. -/
def simulate_hill_radius (w : World) (iterations : ℕ) (dt : ℝ) : World :=
  let captured := w.ship.in_hill_radius_of
  let s1 := w.ship.save
  let L1 := saveBodiesAt captured w.bodies
  let q := simLoop captured dt iterations (s1, L1)
  { ship := q.1.load, bodies := loadBodiesAt captured q.2 }

/-- Arbitrary mutations of the public kinematic fields (position, velocity, rotation),
including self-integration; the checkpoint slot and the mass are not among them. -/
inductive MovMut
  | setPos (v : Vec2)
  | setVel (v : Vec2)
  | setRot (r : ℝ)
  | integrate (dt : ℝ)

/-- Apply one kinematic mutation. -/
def applyMut (m : Movable) : MovMut → Movable
  | MovMut.setPos v => { m with pos := v }
  | MovMut.setVel v => { m with vel := v }
  | MovMut.setRot r => { m with rot := r }
  | MovMut.integrate dt => m.update dt

/- ## Basic lemmas -/

lemma getB_nil (i : ℕ) : getB [] i = defaultBody := by
  cases i <;> rfl

lemma getB_cons_zero (b : CelestialBody) (L : List CelestialBody) : getB (b :: L) 0 = b := rfl

lemma getB_cons_succ (b : CelestialBody) (L : List CelestialBody) (n : ℕ) :
    getB (b :: L) (n + 1) = getB L n := rfl

lemma set_oor : ∀ (L : List CelestialBody) (i : ℕ), L.length ≤ i →
    ∀ b, L.set i b = L
  | [], _, _, _ => rfl
  | x :: xs, 0, h, b => by simp at h
  | x :: xs, n + 1, h, b => by
      simp only [List.set]
      rw [set_oor xs n (by simpa using h) b]

lemma getB_set_self : ∀ (L : List CelestialBody) (i : ℕ), i < L.length →
    ∀ b, getB (L.set i b) i = b
  | [], i, h, b => by simp at h
  | x :: xs, 0, h, b => rfl
  | x :: xs, n + 1, h, b => by
      simp only [List.set, getB_cons_succ]
      exact getB_set_self xs n (by simpa using h) b

lemma getB_set_ne : ∀ (L : List CelestialBody) (i j : ℕ), j ≠ i →
    ∀ b, getB (L.set i b) j = getB L j
  | [], _, _, _, _ => by simp
  | x :: xs, 0, 0, h, b => absurd rfl h
  | x :: xs, 0, j + 1, _, b => rfl
  | x :: xs, i + 1, 0, _, b => rfl
  | x :: xs, i + 1, j + 1, h, b => by
      simp only [List.set, getB_cons_succ]
      exact getB_set_ne xs i j (fun hji => h (by rw [hji])) b

lemma getB_set (L : List CelestialBody) (i j : ℕ) (b : CelestialBody) :
    getB (L.set i b) j = if j = i ∧ i < L.length then b else getB L j := by
  by_cases hj : j = i
  · subst hj
    by_cases hi : j < L.length
    · simp [hi, getB_set_self L j hi b]
    · simp [hi, set_oor L j (le_of_not_lt hi) b]
  · simp [hj, getB_set_ne L i j hj b]

lemma length_squared_eq_zero_iff (v : Vec2) : v.length_squared = 0 ↔ v = 0 := by
  unfold Vec2.length_squared
  constructor
  · intro h
    have hx : v.x * v.x = 0 := by nlinarith [mul_self_nonneg v.x, mul_self_nonneg v.y]
    have hy : v.y * v.y = 0 := by nlinarith [mul_self_nonneg v.x, mul_self_nonneg v.y]
    ext
    · exact mul_self_eq_zero.mp hx
    · exact mul_self_eq_zero.mp hy
  · intro h
    rw [h]
    simp

lemma vec2_sub_eq_zero_iff (a b : Vec2) : a - b = 0 ↔ a = b := by
  constructor
  · intro h
    have hx := congrArg Vec2.x h
    have hy := congrArg Vec2.y h
    simp only [Vec2.sub_x, Vec2.sub_y, Vec2.zero_x, Vec2.zero_y] at hx hy
    ext
    · linarith
    · linarith
  · intro h
    rw [h]
    ext <;> simp

lemma length_squared_nonneg (v : Vec2) : 0 ≤ v.length_squared :=
  add_nonneg (mul_self_nonneg _) (mul_self_nonneg _)

lemma vec2_length_sq (v : Vec2) : v.length ^ 2 = v.length_squared :=
  Real.sq_sqrt (length_squared_nonneg v)

lemma vec2_length_smul (c : ℝ) (v : Vec2) : (c • v).length = |c| * v.length := by
  unfold Vec2.length
  have h : (c • v).length_squared = c ^ 2 * v.length_squared := by
    simp only [Vec2.length_squared, Vec2.smul_x, Vec2.smul_y]
    ring
  rw [h, Real.sqrt_mul (sq_nonneg c), Real.sqrt_sq_eq_abs]

/- ## C7: Movable checkpoint/restore -/

lemma applyMut_store (m : Movable) (μ : MovMut) : (applyMut m μ).store = m.store := by
  cases μ <;> rfl

lemma applyMut_mass (m : Movable) (μ : MovMut) : (applyMut m μ).mass = m.mass := by
  cases μ <;> rfl

lemma foldl_applyMut_store : ∀ (ms : List MovMut) (m : Movable),
    (ms.foldl applyMut m).store = m.store
  | [], m => rfl
  | μ :: rest, m => by
      rw [List.foldl_cons, foldl_applyMut_store rest, applyMut_store]

lemma foldl_applyMut_mass : ∀ (ms : List MovMut) (m : Movable),
    (ms.foldl applyMut m).mass = m.mass
  | [], m => rfl
  | μ :: rest, m => by
      rw [List.foldl_cons, foldl_applyMut_mass rest, applyMut_mass]

/-- C7: checkpoint/restore of a kinematic state is lossless: any sequence of
mutations of position, velocity and rotation after save() is undone exactly by
load(); repeated load() is a fixed point; and no Movable operation changes mass. -/
theorem movable_checkpoint_lossless (m : Movable) (ms : List MovMut) :
    ((ms.foldl applyMut m.save).load.pos = m.pos ∧
     (ms.foldl applyMut m.save).load.vel = m.vel ∧
     (ms.foldl applyMut m.save).load.rot = m.rot) ∧
    (ms.foldl applyMut m.save).load.load = (ms.foldl applyMut m.save).load ∧
    (∀ m1 : Movable, m1.save.mass = m1.mass ∧ m1.load.mass = m1.mass ∧
      ∀ dt : ℝ, (m1.update dt).mass = m1.mass) ∧
    (∀ (p v : Vec2) (mass rot : ℝ), (Movable.new p v mass rot).mass = mass) ∧
    (∀ (m1 : Movable) (μ : MovMut), (applyMut m1 μ).mass = m1.mass) := by
  have hstore := foldl_applyMut_store ms m.save
  refine ⟨?_, ?_, ?_, ?_, ?_⟩
  · simp only [Movable.load]
    rw [hstore]
    exact ⟨rfl, rfl, rfl⟩
  · rfl
  · intro m1
    exact ⟨rfl, rfl, fun dt => rfl⟩
  · intro p v mass rot
    rfl
  · exact applyMut_mass

/- ## C10: Ship::load consumes the saved flight-state slot -/

/-- C10: after save() then load() the stored flight-state slot is InSpace, so a
second load() forces the flight state to InSpace, while the kinematic triple is
restored unchanged a second time. -/
theorem ship_load_consumes_store (s : Ship) :
    s.save.load.store = ShipState.InSpace ∧
    s.save.load.state = s.state ∧
    s.save.load.load.state = ShipState.InSpace ∧
    s.save.load.load.mov.pos = s.mov.pos ∧
    s.save.load.load.mov.vel = s.mov.vel ∧
    s.save.load.load.mov.rot = s.mov.rot := by
  refine ⟨rfl, rfl, rfl, rfl, rfl, rfl⟩

/- ## C9: asteroids are pulled only by the designated parent -/

/-- C9: apply_gravity_asteroids is exactly a per-asteroid velocity kick toward the
designated parent: each output body equals the input body with only its velocity
changed, by a quantity depending only on that asteroid and the parent; the parent is
only read (immutable borrow in the source) and other asteroids play no role. -/
theorem apply_gravity_asteroids_parent_only (asteroids : List CelestialBody)
    (parent : CelestialBody) (dt : ℝ) :
    apply_gravity_asteroids asteroids parent dt =
      asteroids.map (fun a =>
        { a with mov := { a.mov with vel := a.mov.vel +
            (gravity_vel a.mov.pos a.mov.mass parent.mov.pos parent.mov.mass dt).1 } }) := by
  induction asteroids with
  | nil => rfl
  | cons a rest ih => simp [apply_gravity_asteroids, ih]

/- ## C6: gravity_vel is unguarded at coincident positions -/

/-- C6: gravity_vel has no branch for coincident positions: with the partiality of
zero-vector normalization and zero division tracked, its value is undefined exactly
when the two positions coincide, and in every other case it is the single unguarded
algebraic expression; no defined zero-force or error outcome exists. -/
theorem gravity_vel_unguarded_at_coincident (a_pos : Vec2) (a_mass : ℝ) (b_pos : Vec2)
    (b_mass : ℝ) (dt : ℝ) :
    (gravity_velP a_pos a_mass b_pos b_mass dt =
      if (a_pos - b_pos).length_squared = 0 then none
      else some (gravity_vel a_pos a_mass b_pos b_mass dt)) ∧
    (gravity_velP a_pos a_mass b_pos b_mass dt = none ↔ a_pos = b_pos) := by
  by_cases h : (a_pos - b_pos).length_squared = 0
  · have hab : a_pos = b_pos :=
      (vec2_sub_eq_zero_iff a_pos b_pos).mp ((length_squared_eq_zero_iff _).mp h)
    constructor
    · simp [gravity_velP, normalizeP, h]
    · exact ⟨fun _ => hab, fun _ => by simp [gravity_velP, normalizeP, h]⟩
  · have hab : ¬ a_pos = b_pos := by
      intro hh
      exact h ((length_squared_eq_zero_iff _).mpr ((vec2_sub_eq_zero_iff a_pos b_pos).mpr hh))
    constructor
    · simp only [gravity_velP, normalizeP, divP, h, if_neg, Option.bind_some,
        Option.map_some, gravity_vel]
      rfl
    · simp [gravity_velP, normalizeP, divP, h, hab]

/- ## C5: pairwise gravity direction, magnitude and third-law balance -/

/-- C5 (amended): for distinct positions, nonnegative masses and nonnegative dt,
gravity_vel kicks each body toward the other with magnitude G·m_other/d²·dt, and the
two magnitudes weighted by the respective receiving masses agree. -/
theorem gravity_vel_pairwise_newton (a_pos : Vec2) (a_mass : ℝ) (b_pos : Vec2)
    (b_mass : ℝ) (dt : ℝ) (hab : a_pos ≠ b_pos) (hma : 0 ≤ a_mass) (hmb : 0 ≤ b_mass)
    (hdt : 0 ≤ dt) :
    (∃ c : ℝ, 0 ≤ c ∧
      (gravity_vel a_pos a_mass b_pos b_mass dt).1 = c • (b_pos - a_pos)) ∧
    (∃ c : ℝ, 0 ≤ c ∧
      (gravity_vel a_pos a_mass b_pos b_mass dt).2 = c • (a_pos - b_pos)) ∧
    (gravity_vel a_pos a_mass b_pos b_mass dt).1.length
      = G * b_mass / (a_pos - b_pos).length ^ 2 * dt ∧
    (gravity_vel a_pos a_mass b_pos b_mass dt).2.length
      = G * a_mass / (a_pos - b_pos).length ^ 2 * dt ∧
    (gravity_vel a_pos a_mass b_pos b_mass dt).1.length * a_mass
      = (gravity_vel a_pos a_mass b_pos b_mass dt).2.length * b_mass := by
  have hG : (0 : ℝ) < G := by norm_num [G]
  have hd2 : 0 < (a_pos - b_pos).length_squared := by
    rcases lt_or_eq_of_le (length_squared_nonneg (a_pos - b_pos)) with h | h
    · exact h
    · exact absurd ((vec2_sub_eq_zero_iff _ _).mp
        ((length_squared_eq_zero_iff _).mp h.symm)) hab
  have hlen : 0 < (a_pos - b_pos).length := Real.sqrt_pos.mpr hd2
  have hka : 0 ≤ b_mass * G / (a_pos - b_pos).length_squared * dt :=
    mul_nonneg (div_nonneg (mul_nonneg hmb hG.le) hd2.le) hdt
  have hkb : 0 ≤ a_mass * G / (a_pos - b_pos).length_squared * dt :=
    mul_nonneg (div_nonneg (mul_nonneg hma hG.le) hd2.le) hdt
  have e1 : (gravity_vel a_pos a_mass b_pos b_mass dt).1.length
      = b_mass * G / (a_pos - b_pos).length_squared * dt := by
    have h0 : (gravity_vel a_pos a_mass b_pos b_mass dt).1
        = (-(b_mass * G / (a_pos - b_pos).length_squared * dt)) •
            ((1 / (a_pos - b_pos).length) • (a_pos - b_pos)) := rfl
    rw [h0, vec2_length_smul, vec2_length_smul, abs_neg, abs_of_nonneg hka,
      abs_of_nonneg (by positivity : (0:ℝ) ≤ 1 / (a_pos - b_pos).length),
      one_div, inv_mul_cancel₀ (ne_of_gt hlen), mul_one]
  have e2 : (gravity_vel a_pos a_mass b_pos b_mass dt).2.length
      = a_mass * G / (a_pos - b_pos).length_squared * dt := by
    have h0 : (gravity_vel a_pos a_mass b_pos b_mass dt).2
        = (a_mass * G / (a_pos - b_pos).length_squared * dt) •
            ((1 / (a_pos - b_pos).length) • (a_pos - b_pos)) := rfl
    rw [h0, vec2_length_smul, vec2_length_smul, abs_of_nonneg hkb,
      abs_of_nonneg (by positivity : (0:ℝ) ≤ 1 / (a_pos - b_pos).length),
      one_div, inv_mul_cancel₀ (ne_of_gt hlen), mul_one]
  have hd2' : (a_pos - b_pos).length ^ 2 = (a_pos - b_pos).length_squared :=
    vec2_length_sq _
  refine ⟨?_, ?_, ?_, ?_, ?_⟩
  · refine ⟨b_mass * G / (a_pos - b_pos).length_squared * dt *
      (1 / Real.sqrt (a_pos - b_pos).length_squared),
      mul_nonneg hka (by positivity), ?_⟩
    ext <;> simp [gravity_vel, Vec2.normalize, Vec2.length] <;> ring
  · refine ⟨a_mass * G / (a_pos - b_pos).length_squared * dt *
      (1 / Real.sqrt (a_pos - b_pos).length_squared),
      mul_nonneg hkb (by positivity), ?_⟩
    ext <;> simp [gravity_vel, Vec2.normalize, Vec2.length] <;> ring
  · rw [e1, hd2']; ring
  · rw [e2, hd2']; ring
  · rw [e1, e2]; ring

/-- Witness for C5 at a concrete input: unit masses one unit apart, dt = 1. -/
theorem gravity_vel_pairwise_newton_witness :
    ((⟨1, 0⟩ : Vec2) ≠ (⟨0, 0⟩ : Vec2) ∧ (0:ℝ) ≤ 1 ∧ (0:ℝ) ≤ 1 ∧ (0:ℝ) ≤ 1) ∧
    ((∃ c : ℝ, 0 ≤ c ∧
      (gravity_vel ⟨1, 0⟩ 1 ⟨0, 0⟩ 1 1).1 = c • ((⟨0, 0⟩ : Vec2) - ⟨1, 0⟩)) ∧
    (∃ c : ℝ, 0 ≤ c ∧
      (gravity_vel ⟨1, 0⟩ 1 ⟨0, 0⟩ 1 1).2 = c • ((⟨1, 0⟩ : Vec2) - ⟨0, 0⟩)) ∧
    (gravity_vel ⟨1, 0⟩ 1 ⟨0, 0⟩ 1 1).1.length
      = G * 1 / ((⟨1, 0⟩ : Vec2) - ⟨0, 0⟩).length ^ 2 * 1 ∧
    (gravity_vel ⟨1, 0⟩ 1 ⟨0, 0⟩ 1 1).2.length
      = G * 1 / ((⟨1, 0⟩ : Vec2) - ⟨0, 0⟩).length ^ 2 * 1 ∧
    (gravity_vel ⟨1, 0⟩ 1 ⟨0, 0⟩ 1 1).1.length * 1
      = (gravity_vel ⟨1, 0⟩ 1 ⟨0, 0⟩ 1 1).2.length * 1) := by
  have hne : (⟨1, 0⟩ : Vec2) ≠ (⟨0, 0⟩ : Vec2) := by
    intro h
    have := congrArg Vec2.x h
    norm_num at this
  exact ⟨⟨hne, by norm_num, by norm_num, by norm_num⟩,
    gravity_vel_pairwise_newton ⟨1, 0⟩ 1 ⟨0, 0⟩ 1 1 hne (by norm_num) (by norm_num)
      (by norm_num)⟩

/-- C5 counterexample: the claim quantifies over every dt, but at dt = -1 the first
delta's magnitude is 50 while the claimed value G·m/d²·dt is -50, so the claimed
conjunction fails at that input. -/
theorem gravity_vel_negative_dt_violates_claim :
    ¬ ((∃ c : ℝ, 0 ≤ c ∧
        (gravity_vel ⟨1, 0⟩ 1 ⟨0, 0⟩ 1 (-1)).1 = c • ((⟨0, 0⟩ : Vec2) - ⟨1, 0⟩)) ∧
       (gravity_vel ⟨1, 0⟩ 1 ⟨0, 0⟩ 1 (-1)).1.length
         = G * 1 / ((⟨1, 0⟩ : Vec2) - ⟨0, 0⟩).length ^ 2 * (-1)) := by
  intro h
  have hnn : 0 ≤ (gravity_vel ⟨1, 0⟩ 1 ⟨0, 0⟩ 1 (-1)).1.length := Real.sqrt_nonneg _
  have hls : ((⟨1, 0⟩ : Vec2) - (⟨0, 0⟩ : Vec2)).length_squared = 1 := by
    simp [Vec2.length_squared]
  have hsq : ((⟨1, 0⟩ : Vec2) - (⟨0, 0⟩ : Vec2)).length ^ 2 = 1 := by
    rw [vec2_length_sq, hls]
  rw [h.2, hsq] at hnn
  norm_num [G] at hnn

/- ## C4: from_parent stores a hill radius computed at the wrong position -/

/-- A concrete parent body: unit mass at the origin, at rest. -/
def c4parent : CelestialBody :=
  { mov := Movable.new ⟨0, 0⟩ ⟨0, 0⟩ 1 0, radius := 5,
    cb_type := CelestialBodyType.Star, hill_radius := 0 }

lemma c4_delta : rotate_vec2_by_rad ⟨1, 0⟩ (to_radians 0) = ⟨1, 0⟩ := by
  have h0 : to_radians 0 = 0 := by simp [to_radians]
  rw [h0]
  simp [rotate_vec2_by_rad]

/-- C4: the body built by from_parent(parent mass 1 at the origin, distance 1,
angle 0, mass 3) is created at position (1,0), one unit from its parent, yet its
stored hill_radius is 2 — the hill-radius formula evaluated at parent.pos + 2·offset
(the source passes mov.pos + pos as the child position) — while the formula at the
body's actual created position gives 1. -/
theorem from_parent_hill_radius_doubles_distance :
    (CelestialBody.from_parent c4parent 1 0 3 2 CelestialBodyType.Planet).mov.pos
      = (⟨1, 0⟩ : Vec2) ∧
    (CelestialBody.from_parent c4parent 1 0 3 2 CelestialBodyType.Planet).hill_radius = 2 ∧
    calculate_hill_radius c4parent.mov.pos c4parent.mov.mass
      (CelestialBody.from_parent c4parent 1 0 3 2 CelestialBodyType.Planet).mov.pos
      (CelestialBody.from_parent c4parent 1 0 3 2 CelestialBodyType.Planet).mov.mass = 1 ∧
    (2 : ℝ) ≠ 1 := by
  have hpv : (get_initial_position_and_velocity c4parent.mov.mass 1 0).1 = ⟨1, 0⟩ := by
    simp only [get_initial_position_and_velocity]
    exact c4_delta
  have hcbrt : rcbrt 1 = 1 := by
    rw [rcbrt, if_pos (by norm_num : (0:ℝ) ≤ 1), Real.one_rpow]
  have hpos : (CelestialBody.from_parent c4parent 1 0 3 2 CelestialBodyType.Planet).mov.pos
      = (⟨1, 0⟩ : Vec2) := by
    simp only [CelestialBody.from_parent, Movable.new, hpv]
    show (⟨0, 0⟩ : Vec2) + ⟨1, 0⟩ = ⟨1, 0⟩
    ext <;> simp
  have hmass : (CelestialBody.from_parent c4parent 1 0 3 2 CelestialBodyType.Planet).mov.mass
      = 3 := rfl
  refine ⟨hpos, ?_, ?_, by norm_num⟩
  · show calculate_hill_radius c4parent.mov.pos c4parent.mov.mass
      ((Movable.new (c4parent.mov.pos + (get_initial_position_and_velocity c4parent.mov.mass 1 0).1)
        (c4parent.mov.vel + (get_initial_position_and_velocity c4parent.mov.mass 1 0).2) 3 0).pos
        + (get_initial_position_and_velocity c4parent.mov.mass 1 0).1) 3 = 2
    rw [show (Movable.new (c4parent.mov.pos + (get_initial_position_and_velocity c4parent.mov.mass 1 0).1)
        (c4parent.mov.vel + (get_initial_position_and_velocity c4parent.mov.mass 1 0).2) 3 0).pos
        = c4parent.mov.pos + (get_initial_position_and_velocity c4parent.mov.mass 1 0).1 from rfl]
    rw [hpv]
    have harg : c4parent.mov.pos + (⟨1, 0⟩ : Vec2) + (⟨1, 0⟩ : Vec2) = (⟨2, 0⟩ : Vec2) := by
      show (⟨0, 0⟩ : Vec2) + ⟨1, 0⟩ + ⟨1, 0⟩ = ⟨2, 0⟩
      ext <;> norm_num
    rw [harg]
    show ((⟨2, 0⟩ : Vec2) - c4parent.mov.pos).length * rcbrt (3 / (3 * c4parent.mov.mass)) = 2
    have hsub : (⟨2, 0⟩ : Vec2) - c4parent.mov.pos = (⟨2, 0⟩ : Vec2) := by
      show (⟨2, 0⟩ : Vec2) - ⟨0, 0⟩ = ⟨2, 0⟩
      ext <;> simp
    rw [hsub]
    have hlen : ((⟨2, 0⟩ : Vec2)).length = 2 := by
      rw [Vec2.length, show ((⟨2, 0⟩ : Vec2)).length_squared = 4 by
        simp [Vec2.length_squared]; norm_num]
      rw [show (4:ℝ) = 2 ^ 2 by norm_num, Real.sqrt_sq (by norm_num : (0:ℝ) ≤ 2)]
    rw [hlen, show (3 : ℝ) / (3 * c4parent.mov.mass) = 1 by
      show (3 : ℝ) / (3 * 1) = 1; norm_num]
    rw [hcbrt]
    norm_num
  · rw [hpos, hmass]
    show ((⟨1, 0⟩ : Vec2) - c4parent.mov.pos).length * rcbrt (3 / (3 * c4parent.mov.mass)) = 1
    have hsub : (⟨1, 0⟩ : Vec2) - c4parent.mov.pos = (⟨1, 0⟩ : Vec2) := by
      show (⟨1, 0⟩ : Vec2) - ⟨0, 0⟩ = ⟨1, 0⟩
      ext <;> simp
    rw [hsub]
    have hlen : ((⟨1, 0⟩ : Vec2)).length = 1 := by
      rw [Vec2.length, show ((⟨1, 0⟩ : Vec2)).length_squared = 1 by
        simp [Vec2.length_squared]]
      exact Real.sqrt_one
    rw [hlen, show (3 : ℝ) / (3 * c4parent.mov.mass) = 1 by
      show (3 : ℝ) / (3 * 1) = 1; norm_num]
    rw [hcbrt]
    norm_num

/- ## Preservation infrastructure: which fields each operation can touch -/

/-- Ship fields that no rollout operation touches: the two checkpoint slots, the
mass, and the fuel gauge. -/
def shipPres (a b : Ship) : Prop :=
  a.mov.store = b.mov.store ∧ a.mov.mass = b.mov.mass ∧ a.store = b.store ∧
  a.fuel = b.fuel ∧ a.max_fuel = b.max_fuel

lemma shipPres_refl (s : Ship) : shipPres s s := ⟨rfl, rfl, rfl, rfl, rfl⟩

lemma shipPres_trans {a b c : Ship} (h1 : shipPres a b) (h2 : shipPres b c) :
    shipPres a c :=
  ⟨h1.1.trans h2.1, h1.2.1.trans h2.2.1, h1.2.2.1.trans h2.2.2.1,
   h1.2.2.2.1.trans h2.2.2.2.1, h1.2.2.2.2.trans h2.2.2.2.2⟩

/-- Body fields that no rollout operation touches: checkpoint slot, mass, radius,
hill radius and category. -/
def coreEq (a b : CelestialBody) : Prop :=
  a.mov.store = b.mov.store ∧ a.mov.mass = b.mov.mass ∧ a.radius = b.radius ∧
  a.hill_radius = b.hill_radius ∧ a.cb_type = b.cb_type

lemma coreEq_refl (a : CelestialBody) : coreEq a a := ⟨rfl, rfl, rfl, rfl, rfl⟩

lemma coreEq_trans {a b c : CelestialBody} (h1 : coreEq a b) (h2 : coreEq b c) :
    coreEq a c :=
  ⟨h1.1.trans h2.1, h1.2.1.trans h2.2.1, h1.2.2.1.trans h2.2.2.1,
   h1.2.2.2.1.trans h2.2.2.2.1, h1.2.2.2.2.trans h2.2.2.2.2⟩

lemma coreEq_velUpd (b : CelestialBody) (v : Vec2) :
    coreEq { b with mov := { b.mov with vel := v } } b := ⟨rfl, rfl, rfl, rfl, rfl⟩

lemma coreEq_update (b : CelestialBody) (dt : ℝ) : coreEq (b.update dt) b :=
  ⟨rfl, rfl, rfl, rfl, rfl⟩

/-- Relation between a body list and the checkpointed baseline: same length, entries
outside the captured index set untouched, and every entry's untouchable fields
preserved. -/
def scopedEq (c : List ℕ) (L0 L : List CelestialBody) : Prop :=
  L.length = L0.length ∧ (∀ i, i ∉ c → getB L i = getB L0 i) ∧
  ∀ i, coreEq (getB L i) (getB L0 i)

lemma scopedEq_refl (c : List ℕ) (L : List CelestialBody) : scopedEq c L L :=
  ⟨rfl, fun _ _ => rfl, fun _ => coreEq_refl _⟩

lemma scopedEq_set {c : List ℕ} {L0 L : List CelestialBody} {i : ℕ} {b : CelestialBody}
    (hi : i ∈ c) (hb : coreEq b (getB L i)) (h : scopedEq c L0 L) :
    scopedEq c L0 (L.set i b) := by
  refine ⟨(List.length_set L i b).trans h.1, ?_, ?_⟩
  · intro j hj
    rw [getB_set_ne L i j (fun hji => hj (hji ▸ hi)) b]
    exact h.2.1 j hj
  · intro j
    rw [getB_set]
    split
    · next hcond =>
        rw [hcond.1]
        exact coreEq_trans hb (h.2.2 i)
    · exact h.2.2 j

/- Gravity among captured bodies only moves velocities of captured entries. -/

lemma scopedEq_agcb_pair {c : List ℕ} {L0 L : List CelestialBody} {a b : ℕ} {dt : ℝ}
    (ha : a ∈ c) (hb : b ∈ c) (h : scopedEq c L0 L) :
    scopedEq c L0 (agcb_pair L a b dt) := by
  unfold agcb_pair
  exact scopedEq_set hb (coreEq_velUpd _ _) (scopedEq_set ha (coreEq_velUpd _ _) h)

lemma scopedEq_agcb_inner {c : List ℕ} {a : ℕ} {dt : ℝ} :
    ∀ (js : List ℕ) {L0 L : List CelestialBody}, a ∈ c → (∀ j ∈ js, j ∈ c) →
      scopedEq c L0 L → scopedEq c L0 (agcb_inner a js L dt)
  | [], _, _, _, _, h => h
  | j :: rest, L0, L, ha, hjs, h => by
      unfold agcb_inner
      rw [List.foldl_cons]
      exact scopedEq_agcb_inner rest ha (fun x hx => hjs x (List.mem_cons_of_mem j hx))
        (scopedEq_agcb_pair ha (hjs j (List.mem_cons_self j rest)) h)

lemma scopedEq_agcb {c : List ℕ} {dt : ℝ} :
    ∀ (idxs : List ℕ) {L0 L : List CelestialBody}, (∀ i ∈ idxs, i ∈ c) →
      scopedEq c L0 L → scopedEq c L0 (apply_gravity_to_celestial_bodies idxs L dt)
  | [], _, _, _, h => h
  | i :: rest, L0, L, hidx, h => by
      unfold apply_gravity_to_celestial_bodies
      exact scopedEq_agcb rest (fun x hx => hidx x (List.mem_cons_of_mem i hx))
        (scopedEq_agcb_inner rest (hidx i (List.mem_cons_self i rest))
          (fun x hx => hidx x (List.mem_cons_of_mem i hx)) h)

lemma scopedEq_updateBodiesAt {c : List ℕ} {dt : ℝ} :
    ∀ (idxs : List ℕ) {L0 L : List CelestialBody}, (∀ i ∈ idxs, i ∈ c) →
      scopedEq c L0 L → scopedEq c L0 (updateBodiesAt idxs L dt)
  | [], _, _, _, h => h
  | i :: rest, L0, L, hidx, h => by
      unfold updateBodiesAt
      rw [List.foldl_cons]
      exact scopedEq_updateBodiesAt rest (fun x hx => hidx x (List.mem_cons_of_mem i hx))
        (scopedEq_set (hidx i (List.mem_cons_self i rest)) (coreEq_update _ _) h)

/- The ship-gravity scan: ship untouchables preserved, state preserved, and the body
list moves only captured velocities. -/

lemma agStep_fold_pres {c : List ℕ} {L0 : List CelestialBody} {dt : ℝ} :
    ∀ (idxs : List ℕ) (p : Ship × List CelestialBody), (∀ i ∈ idxs, i ∈ c) →
      scopedEq c L0 p.2 →
      (shipPres (idxs.foldl (Ship.agStep dt) p).1 p.1 ∧
       (idxs.foldl (Ship.agStep dt) p).1.state = p.1.state ∧
       scopedEq c L0 (idxs.foldl (Ship.agStep dt) p).2)
  | [], p, _, h => ⟨shipPres_refl _, rfl, h⟩
  | i :: rest, p, hidx, h => by
      rw [List.foldl_cons]
      have hstep : shipPres (Ship.agStep dt p i).1 p.1 ∧
          (Ship.agStep dt p i).1.state = p.1.state ∧
          scopedEq c L0 (Ship.agStep dt p i).2 := by
        unfold Ship.agStep
        split
        · exact ⟨⟨rfl, rfl, rfl, rfl, rfl⟩, rfl,
            scopedEq_set (hidx i (List.mem_cons_self i rest)) (coreEq_velUpd _ _) h⟩
        · exact ⟨shipPres_refl _, rfl, h⟩
      have ih := @agStep_fold_pres c L0 dt rest (Ship.agStep dt p i)
        (fun x hx => hidx x (List.mem_cons_of_mem i hx)) hstep.2.2
      exact ⟨shipPres_trans ih.1 hstep.1, ih.2.1.trans hstep.2.1, ih.2.2⟩

lemma apply_gravity_pres {c : List ℕ} {L0 : List CelestialBody} (s : Ship)
    (idxs : List ℕ) (L : List CelestialBody) (dt : ℝ) (hidx : ∀ i ∈ idxs, i ∈ c)
    (h : scopedEq c L0 L) :
    shipPres (s.apply_gravity idxs L dt).1 s ∧
    (s.apply_gravity idxs L dt).1.state = s.state ∧
    scopedEq c L0 (s.apply_gravity idxs L dt).2 := by
  cases hst : s.state with
  | Landed i tv =>
      have he : s.apply_gravity idxs L dt
          = ({ s with mov := { s.mov with vel := (getB L i).mov.vel } }, L) := by
        simp [Ship.apply_gravity, hst]
      rw [he]
      exact ⟨⟨rfl, rfl, rfl, rfl, rfl⟩, hst, h⟩
  | InSpace =>
      have he : s.apply_gravity idxs L dt
          = idxs.foldl (Ship.agStep dt) ({ s with in_hill_radius_of := [] }, L) := by
        simp [Ship.apply_gravity, hst]
      rw [he]
      have hf := @agStep_fold_pres c L0 dt idxs ({ s with in_hill_radius_of := [] }, L) hidx h
      exact ⟨hf.1, hf.2.1.trans hst, hf.2.2⟩
  | Destroyed =>
      have he : s.apply_gravity idxs L dt
          = idxs.foldl (Ship.agStep dt) ({ s with in_hill_radius_of := [] }, L) := by
        simp [Ship.apply_gravity, hst]
      rw [he]
      have hf := @agStep_fold_pres c L0 dt idxs ({ s with in_hill_radius_of := [] }, L) hidx h
      exact ⟨hf.1, hf.2.1.trans hst, hf.2.2⟩

lemma update_shipPres (s : Ship) (dt : ℝ) :
    shipPres (s.update dt) s ∧ (s.update dt).state = s.state :=
  ⟨⟨rfl, rfl, rfl, rfl, rfl⟩, rfl⟩

lemma simStep_pres {c : List ℕ} {L0 : List CelestialBody} {dt : ℝ}
    (p : Ship × List CelestialBody) (h : scopedEq c L0 p.2) :
    shipPres (simStep c dt p).1.1 p.1 ∧ scopedEq c L0 (simStep c dt p).1.2 := by
  have h1 : scopedEq c L0 (apply_gravity_to_celestial_bodies c p.2 dt) :=
    scopedEq_agcb c (fun i hi => hi) h
  have h2 := @apply_gravity_pres c L0 p.1 c (apply_gravity_to_celestial_bodies c p.2 dt)
    dt (fun i hi => hi) h1
  have h3 : scopedEq c L0
      (updateBodiesAt c
        (p.1.apply_gravity c (apply_gravity_to_celestial_bodies c p.2 dt) dt).2 dt) :=
    scopedEq_updateBodiesAt c (fun i hi => hi) h2.2.2
  have hship : shipPres
      ((p.1.apply_gravity c (apply_gravity_to_celestial_bodies c p.2 dt) dt).1.update dt)
      p.1 :=
    shipPres_trans (update_shipPres _ dt).1 h2.1
  simp only [simStep]
  split <;> (try split) <;> exact ⟨hship, h3⟩

lemma simLoop_pres {c : List ℕ} {L0 : List CelestialBody} {dt : ℝ} :
    ∀ (n : ℕ) (p : Ship × List CelestialBody), scopedEq c L0 p.2 →
      shipPres (simLoop c dt n p).1 p.1 ∧ scopedEq c L0 (simLoop c dt n p).2
  | 0, p, h => ⟨shipPres_refl _, h⟩
  | n + 1, p, h => by
      simp only [simLoop]
      split
      · exact simStep_pres p h
      · have hs := @simStep_pres c L0 dt p h
        have ih := @simLoop_pres c L0 dt n (simStep c dt p).1 hs.2
        exact ⟨shipPres_trans ih.1 hs.1, ih.2⟩

/- Checkpoint and restore folds, entrywise. -/

lemma getB_oor : ∀ (L : List CelestialBody) (i : ℕ), L.length ≤ i → getB L i = defaultBody
  | [], i, _ => getB_nil i
  | x :: xs, 0, h => by simp at h
  | x :: xs, n + 1, h => getB_oor xs n (by simpa using h)

lemma bodySave_idem (b : CelestialBody) : bodySave (bodySave b) = bodySave b := rfl

lemma bodyLoad_idem (b : CelestialBody) : bodyLoad (bodyLoad b) = bodyLoad b := rfl

lemma saveBodiesAt_cons (j : ℕ) (rest : List ℕ) (L : List CelestialBody) :
    saveBodiesAt (j :: rest) L = saveBodiesAt rest (L.set j (bodySave (getB L j))) := rfl

lemma loadBodiesAt_cons (j : ℕ) (rest : List ℕ) (L : List CelestialBody) :
    loadBodiesAt (j :: rest) L = loadBodiesAt rest (L.set j (bodyLoad (getB L j))) := rfl

lemma length_saveBodiesAt : ∀ (c : List ℕ) (L : List CelestialBody),
    (saveBodiesAt c L).length = L.length
  | [], _ => rfl
  | j :: rest, L => by
      rw [saveBodiesAt_cons]
      exact (length_saveBodiesAt rest _).trans (List.length_set L j _)

lemma length_loadBodiesAt : ∀ (c : List ℕ) (L : List CelestialBody),
    (loadBodiesAt c L).length = L.length
  | [], _ => rfl
  | j :: rest, L => by
      rw [loadBodiesAt_cons]
      exact (length_loadBodiesAt rest _).trans (List.length_set L j _)

lemma getB_saveBodiesAt_notMem : ∀ (c : List ℕ) (L : List CelestialBody) (i : ℕ),
    i ∉ c → getB (saveBodiesAt c L) i = getB L i
  | [], _, _, _ => rfl
  | j :: rest, L, i, h => by
      rw [saveBodiesAt_cons]
      have hij : i ≠ j := fun he => h (he ▸ List.mem_cons_self j rest)
      rw [getB_saveBodiesAt_notMem rest _ i (fun hr => h (List.mem_cons_of_mem j hr))]
      exact getB_set_ne L j i hij _

lemma getB_loadBodiesAt_notMem : ∀ (c : List ℕ) (L : List CelestialBody) (i : ℕ),
    i ∉ c → getB (loadBodiesAt c L) i = getB L i
  | [], _, _, _ => rfl
  | j :: rest, L, i, h => by
      rw [loadBodiesAt_cons]
      have hij : i ≠ j := fun he => h (he ▸ List.mem_cons_self j rest)
      rw [getB_loadBodiesAt_notMem rest _ i (fun hr => h (List.mem_cons_of_mem j hr))]
      exact getB_set_ne L j i hij _

lemma getB_saveBodiesAt_mem : ∀ (c : List ℕ) (L : List CelestialBody) (i : ℕ),
    i ∈ c → getB (saveBodiesAt c L) i = bodySave (getB L i)
  | [], _, i, h => absurd h (List.not_mem_nil i)
  | j :: rest, L, i, h => by
      rw [saveBodiesAt_cons]
      by_cases hir : i ∈ rest
      · rw [getB_saveBodiesAt_mem rest _ i hir]
        by_cases hij : i = j
        · subst hij
          rw [getB_set]
          split
          · rw [bodySave_idem]
          · rfl
        · rw [getB_set_ne L j i hij]
      · have hij : i = j := by
          rcases List.mem_cons.mp h with h1 | h1
          · exact h1
          · exact absurd h1 hir
        subst hij
        rw [getB_saveBodiesAt_notMem rest _ i hir, getB_set]
        split
        · rfl
        · next hc =>
            have hlen : L.length ≤ i := by
              by_contra hlt
              exact hc ⟨rfl, lt_of_not_le hlt⟩
            rw [getB_oor L i hlen]
            rfl

lemma getB_loadBodiesAt_mem : ∀ (c : List ℕ) (L : List CelestialBody) (i : ℕ),
    i ∈ c → getB (loadBodiesAt c L) i = bodyLoad (getB L i)
  | [], _, i, h => absurd h (List.not_mem_nil i)
  | j :: rest, L, i, h => by
      rw [loadBodiesAt_cons]
      by_cases hir : i ∈ rest
      · rw [getB_loadBodiesAt_mem rest _ i hir]
        by_cases hij : i = j
        · subst hij
          rw [getB_set]
          split
          · rw [bodyLoad_idem]
          · rfl
        · rw [getB_set_ne L j i hij]
      · have hij : i = j := by
          rcases List.mem_cons.mp h with h1 | h1
          · exact h1
          · exact absurd h1 hir
        subst hij
        rw [getB_loadBodiesAt_notMem rest _ i hir, getB_set]
        split
        · rfl
        · next hc =>
            have hlen : L.length ≤ i := by
              by_contra hlt
              exact hc ⟨rfl, lt_of_not_le hlt⟩
            rw [getB_oor L i hlen]
            rfl

/-- Restoration of one captured body: load-after-save through any core-preserving
evolution recovers every non-checkpoint field. -/
lemma restore_mem {c : List ℕ} {L0 Q2 : List CelestialBody} {i : ℕ} (hic : i ∈ c)
    (hcore : coreEq (getB Q2 i) (getB (saveBodiesAt c L0) i)) :
    (getB (loadBodiesAt c Q2) i).mov.pos = (getB L0 i).mov.pos ∧
    (getB (loadBodiesAt c Q2) i).mov.vel = (getB L0 i).mov.vel ∧
    (getB (loadBodiesAt c Q2) i).mov.rot = (getB L0 i).mov.rot ∧
    (getB (loadBodiesAt c Q2) i).mov.mass = (getB L0 i).mov.mass ∧
    (getB (loadBodiesAt c Q2) i).radius = (getB L0 i).radius ∧
    (getB (loadBodiesAt c Q2) i).hill_radius = (getB L0 i).hill_radius ∧
    (getB (loadBodiesAt c Q2) i).cb_type = (getB L0 i).cb_type := by
  rw [getB_loadBodiesAt_mem c Q2 i hic]
  rw [getB_saveBodiesAt_mem c L0 i hic] at hcore
  exact ⟨congrArg Prod.fst hcore.1, congrArg (fun t => t.2.1) hcore.1,
    congrArg (fun t => t.2.2) hcore.1, hcore.2.1, hcore.2.2.1, hcore.2.2.2.1,
    hcore.2.2.2.2⟩

/- ## C1: the predictor restores every live field it is allowed to touch -/

/-- C1 (amended): on every exit path (early impact included), the predictor restores
the ship's position, velocity, rotation, mass, flight state, fuel and max fuel, and
every body's position, velocity, rotation, mass, radius, hill radius and category;
bodies outside the captured influencer set are untouched entirely.  (The checkpoint
slots and the ship's transient influencer list are the only fields that may differ;
none of them is read by the next live tick before being overwritten.) -/
theorem simulate_hill_radius_restores_live_state (w : World) (it : ℕ) (dt : ℝ) :
    (simulate_hill_radius w it dt).bodies.length = w.bodies.length ∧
    ((simulate_hill_radius w it dt).ship.mov.pos = w.ship.mov.pos ∧
     (simulate_hill_radius w it dt).ship.mov.vel = w.ship.mov.vel ∧
     (simulate_hill_radius w it dt).ship.mov.rot = w.ship.mov.rot ∧
     (simulate_hill_radius w it dt).ship.mov.mass = w.ship.mov.mass ∧
     (simulate_hill_radius w it dt).ship.state = w.ship.state ∧
     (simulate_hill_radius w it dt).ship.fuel = w.ship.fuel ∧
     (simulate_hill_radius w it dt).ship.max_fuel = w.ship.max_fuel) ∧
    (∀ i, i ∉ w.ship.in_hill_radius_of →
      getB (simulate_hill_radius w it dt).bodies i = getB w.bodies i) ∧
    (∀ i,
      (getB (simulate_hill_radius w it dt).bodies i).mov.pos = (getB w.bodies i).mov.pos ∧
      (getB (simulate_hill_radius w it dt).bodies i).mov.vel = (getB w.bodies i).mov.vel ∧
      (getB (simulate_hill_radius w it dt).bodies i).mov.rot = (getB w.bodies i).mov.rot ∧
      (getB (simulate_hill_radius w it dt).bodies i).mov.mass = (getB w.bodies i).mov.mass ∧
      (getB (simulate_hill_radius w it dt).bodies i).radius = (getB w.bodies i).radius ∧
      (getB (simulate_hill_radius w it dt).bodies i).hill_radius
        = (getB w.bodies i).hill_radius ∧
      (getB (simulate_hill_radius w it dt).bodies i).cb_type = (getB w.bodies i).cb_type) := by
  have hq := @simLoop_pres w.ship.in_hill_radius_of
    (saveBodiesAt w.ship.in_hill_radius_of w.bodies) dt it
    (w.ship.save, saveBodiesAt w.ship.in_hill_radius_of w.bodies) (scopedEq_refl _ _)
  have hbodies : (simulate_hill_radius w it dt).bodies
      = loadBodiesAt w.ship.in_hill_radius_of
          (simLoop w.ship.in_hill_radius_of dt it
            (w.ship.save, saveBodiesAt w.ship.in_hill_radius_of w.bodies)).2 := rfl
  have hship : (simulate_hill_radius w it dt).ship
      = (simLoop w.ship.in_hill_radius_of dt it
          (w.ship.save, saveBodiesAt w.ship.in_hill_radius_of w.bodies)).1.load := rfl
  have hp := hq.1
  have hsc := hq.2
  refine ⟨?_, ⟨?_, ?_, ?_, ?_, ?_, ?_, ?_⟩, ?_, ?_⟩
  · rw [hbodies, length_loadBodiesAt, hsc.1, length_saveBodiesAt]
  · rw [hship]; exact congrArg Prod.fst hp.1
  · rw [hship]; exact congrArg (fun t => t.2.1) hp.1
  · rw [hship]; exact congrArg (fun t => t.2.2) hp.1
  · rw [hship]; exact hp.2.1
  · rw [hship]; exact hp.2.2.1
  · rw [hship]; exact hp.2.2.2.1
  · rw [hship]; exact hp.2.2.2.2
  · intro i hi
    rw [hbodies, getB_loadBodiesAt_notMem _ _ _ hi, hsc.2.1 i hi,
      getB_saveBodiesAt_notMem _ _ _ hi]
  · intro i
    by_cases hic : i ∈ w.ship.in_hill_radius_of
    · rw [hbodies]
      exact restore_mem hic (hsc.2.2 i)
    · rw [hbodies, getB_loadBodiesAt_notMem _ _ _ hic, hsc.2.1 i hic,
        getB_saveBodiesAt_notMem _ _ _ hic]
      exact ⟨rfl, rfl, rfl, rfl, rfl, rfl, rfl⟩

/- ## C8: fuel bounds under ship operations -/

/-- The ship operations named by the claim, with their environments. -/
inductive ShipOp
  | throttle (dt : ℝ)
  | turnL (dt : ℝ)
  | turnR (dt : ℝ)
  | landOp (i : ℕ) (L : List CelestialBody)
  | takeoffOp (v : Vec2)
  | grav (idxs : List ℕ) (L : List CelestialBody) (dt : ℝ)
  | collide (idxs : List ℕ) (L : List CelestialBody) (dt : ℝ)

/-- Apply one ship operation. -/
def applyShipOp (s : Ship) : ShipOp → Ship
  | ShipOp.throttle dt => s.throttle_up dt
  | ShipOp.turnL dt => s.turn_left dt
  | ShipOp.turnR dt => s.turn_right dt
  | ShipOp.landOp i L => s.land i L
  | ShipOp.takeoffOp v => s.takeoff v
  | ShipOp.grav idxs L dt => (s.apply_gravity idxs L dt).1
  | ShipOp.collide idxs L dt => s.process_collision idxs L dt

/-- Throttle steps in the sequence use time steps at most D. -/
def opThrottleLE (D : ℝ) : ShipOp → Prop
  | ShipOp.throttle dt => dt ≤ D
  | _ => True

/-- The fuel bounds that the operations actually maintain: fuel never exceeds
max_fuel, and never drops below zero by more than one thrust charge. -/
def FuelInv (D : ℝ) (s : Ship) : Prop :=
  0 ≤ s.max_fuel ∧ s.fuel ≤ s.max_fuel ∧ -(SHIP_ACCELERATION * D) ≤ s.fuel

lemma throttle_up_fuel (s : Ship) (dt : ℝ) :
    (s.throttle_up dt).max_fuel = s.max_fuel ∧
    ((s.fuel ≤ 0 ∧ (s.throttle_up dt).fuel = s.fuel) ∨
     (¬ s.fuel ≤ 0 ∧
      (s.throttle_up dt).fuel = s.fuel - max (SHIP_ACCELERATION * dt) 0)) := by
  unfold Ship.throttle_up
  split
  · next hf => exact ⟨rfl, Or.inl ⟨hf, rfl⟩⟩
  · next hf =>
      cases hst : s.state with
      | InSpace => exact ⟨rfl, Or.inr ⟨hf, rfl⟩⟩
      | Landed i tv => exact ⟨rfl, Or.inr ⟨hf, rfl⟩⟩
      | Destroyed => exact ⟨rfl, Or.inr ⟨hf, rfl⟩⟩

lemma fuelInv_throttle {D dt : ℝ} {s : Ship} (hD : 0 ≤ D) (hdt : dt ≤ D)
    (h : FuelInv D s) : FuelInv D (s.throttle_up dt) := by
  have ht := throttle_up_fuel s dt
  have hacc : (0:ℝ) ≤ SHIP_ACCELERATION := by norm_num [SHIP_ACCELERATION]
  have hmaxD : max (SHIP_ACCELERATION * dt) 0 ≤ SHIP_ACCELERATION * D :=
    max_le (mul_le_mul_of_nonneg_left hdt hacc) (mul_nonneg hacc hD)
  have hmax0 : 0 ≤ max (SHIP_ACCELERATION * dt) 0 := le_max_right _ _
  rcases ht.2 with ⟨hf, he⟩ | ⟨hf, he⟩
  · exact ⟨by rw [ht.1]; exact h.1, by rw [he, ht.1]; exact h.2.1,
      by rw [he]; exact h.2.2⟩
  · push_neg at hf
    refine ⟨by rw [ht.1]; exact h.1, ?_, ?_⟩
    · rw [he, ht.1]
      have := h.2.1
      linarith
    · rw [he]
      linarith

lemma fuelInv_land {D : ℝ} {s : Ship} {i : ℕ} {L : List CelestialBody} (hD : 0 ≤ D)
    (h : FuelInv D s) : FuelInv D (s.land i L) := by
  unfold Ship.land
  dsimp only
  split
  · exact h
  · have hacc : (0:ℝ) ≤ SHIP_ACCELERATION := by norm_num [SHIP_ACCELERATION]
    have hnn : 0 ≤ SHIP_ACCELERATION * D := mul_nonneg hacc hD
    exact ⟨h.1, le_refl s.max_fuel, by have := h.1; linarith⟩

lemma fuelInv_pcStep {D dt : ℝ} {s : Ship} {i : ℕ} {L : List CelestialBody}
    (hD : 0 ≤ D) (h : FuelInv D s) : FuelInv D (Ship.pcStep L dt s i) := by
  unfold Ship.pcStep
  split
  · exact fuelInv_land hD h
  · exact h

lemma fuelInv_pc_fold {D dt : ℝ} {L : List CelestialBody} (hD : 0 ≤ D) :
    ∀ (idxs : List ℕ) (s : Ship), FuelInv D s →
      FuelInv D (idxs.foldl (Ship.pcStep L dt) s)
  | [], _, h => h
  | i :: rest, s, h => by
      rw [List.foldl_cons]
      exact fuelInv_pc_fold hD rest _ (fuelInv_pcStep hD h)

lemma fuelInv_collide {D dt : ℝ} {s : Ship} {idxs : List ℕ} {L : List CelestialBody}
    (hD : 0 ≤ D) (h : FuelInv D s) : FuelInv D (s.process_collision idxs L dt) := by
  unfold Ship.process_collision
  cases hst : s.state with
  | InSpace => exact fuelInv_pc_fold hD idxs s h
  | Landed i tv =>
      show FuelInv D (if ¬ s.check_collision tv (getB L i) dt then s.takeoff tv else s)
      split
      · exact h
      · exact h
  | Destroyed => exact h

lemma fuelInv_grav {D dt : ℝ} {s : Ship} {idxs : List ℕ} {L : List CelestialBody}
    (h : FuelInv D s) : FuelInv D (s.apply_gravity idxs L dt).1 := by
  have hp := (@apply_gravity_pres idxs L s idxs L dt (fun i hi => hi)
    (scopedEq_refl _ _)).1
  refine ⟨?_, ?_, ?_⟩
  · rw [hp.2.2.2.2]; exact h.1
  · rw [hp.2.2.2.1, hp.2.2.2.2]; exact h.2.1
  · rw [hp.2.2.2.1]; exact h.2.2

lemma fuelInv_applyShipOp {D : ℝ} {s : Ship} (hD : 0 ≤ D) (op : ShipOp)
    (hop : opThrottleLE D op) (h : FuelInv D s) : FuelInv D (applyShipOp s op) := by
  cases op with
  | throttle dt => exact fuelInv_throttle hD hop h
  | turnL dt => exact h
  | turnR dt => exact h
  | landOp i L => exact fuelInv_land hD h
  | takeoffOp v => exact h
  | grav idxs L dt => exact fuelInv_grav h
  | collide idxs L dt => exact fuelInv_collide hD h

/-- C8 (amended): along every sequence of ship operations whose throttle steps use
dt at most D, the fuel stays at most max_fuel and at least -(SHIP_ACCELERATION · D):
the out-of-fuel guard tests fuel ≤ 0 rather than fuel ≥ cost, so one thrust may
overdraw by at most one charge, after which further thrusts no-op. -/
theorem fuel_bounds_invariant (D : ℝ) (hD : 0 ≤ D) (s : Ship) (ops : List ShipOp)
    (hops : ∀ op ∈ ops, opThrottleLE D op) (h : FuelInv D s) :
    FuelInv D (ops.foldl applyShipOp s) := by
  induction ops generalizing s with
  | nil => exact h
  | cons op rest ih =>
      rw [List.foldl_cons]
      exact ih _ (fun x hx => hops x (List.mem_cons_of_mem op hx))
        (fuelInv_applyShipOp hD op (hops op (List.mem_cons_self op rest)) h)

/-- A concrete ship with fuel 5 of max 10. -/
def c8ship : Ship :=
  { mov := Movable.new 0 0 1 0, state := ShipState.InSpace, store := ShipState.InSpace,
    fuel := 5, max_fuel := 10, in_hill_radius_of := [] }

/-- Witness for C8 at a concrete input: one full throttle step from fuel 5/10. -/
theorem fuel_bounds_invariant_witness :
    ((0:ℝ) ≤ 1 ∧ (∀ op ∈ [ShipOp.throttle 1], opThrottleLE 1 op) ∧ FuelInv 1 c8ship) ∧
    FuelInv 1 ([ShipOp.throttle 1].foldl applyShipOp c8ship) := by
  have h1 : (0:ℝ) ≤ 1 := by norm_num
  have h2 : ∀ op ∈ [ShipOp.throttle 1], opThrottleLE (1:ℝ) op := by
    intro op hop
    rw [List.mem_singleton] at hop
    subst hop
    show (1:ℝ) ≤ 1
    exact le_refl 1
  have h3 : FuelInv 1 c8ship := by
    refine ⟨?_, ?_, ?_⟩ <;> norm_num [c8ship, SHIP_ACCELERATION]
  exact ⟨⟨h1, h2, h3⟩, fuel_bounds_invariant 1 h1 c8ship [ShipOp.throttle 1] h2 h3⟩

/-- A concrete ship with a sliver of fuel left. -/
def c8lowfuel : Ship :=
  { mov := Movable.new 0 0 1 0, state := ShipState.InSpace, store := ShipState.InSpace,
    fuel := 1 / 10, max_fuel := 1000, in_hill_radius_of := [] }

/-- C8 counterexample: from fuel 0.1 (within bounds), one throttle_up at the live
physics step spends a full charge 0.2 and leaves fuel at -0.1 < 0, violating the
claimed lower bound 0 ≤ fuel. -/
theorem throttle_up_overdraws_fuel :
    (0 ≤ c8lowfuel.fuel ∧ c8lowfuel.fuel ≤ c8lowfuel.max_fuel) ∧
    (c8lowfuel.throttle_up PHYSICS_STEP).fuel < 0 := by
  constructor
  · constructor <;> norm_num [c8lowfuel]
  · have ht := throttle_up_fuel c8lowfuel PHYSICS_STEP
    rcases ht.2 with ⟨hf, _⟩ | ⟨_, he⟩
    · exfalso
      rw [show c8lowfuel.fuel = 1 / 10 from rfl] at hf
      norm_num at hf
    · rw [he]
      have hm : max (SHIP_ACCELERATION * PHYSICS_STEP) 0 = 1 / 5 := by
        rw [max_eq_left
          (by norm_num [SHIP_ACCELERATION, PHYSICS_STEP] :
            (0:ℝ) ≤ SHIP_ACCELERATION * PHYSICS_STEP)]
        norm_num [SHIP_ACCELERATION, PHYSICS_STEP]
      rw [hm, show c8lowfuel.fuel = 1 / 10 from rfl]
      norm_num

/- ## C2: the landing acceptance rule -/

/-- Modelled from the spec's words (refinement side of C2): the angular misalignment
between the ship's heading and the surface normal is the absolute angular distance
after reducing the difference by the nearest whole number of turns. -/
def spec_angular_misalignment (rot θ : ℝ) : ℝ :=
  |rot - θ - 2 * Real.pi * round ((rot - θ) / (2 * Real.pi))|

/-- Ship::land written out with its let-bindings expanded. -/
lemma land_eq (s : Ship) (i : ℕ) (L : List CelestialBody) :
    s.land i L =
      if |rustRem s.mov.rot (to_radians 360) -
            (-((s.mov.pos - (getB L i).mov.pos).angle_between ⟨1, 0⟩))| > to_radians 30 ∨
          (s.mov.vel - (getB L i).mov.vel).length_squared > TERMINAL_VELOCITY ^ 2 then
        { s with state := ShipState.Destroyed }
      else
        { s with
          mov := { s.mov with rot := -((s.mov.pos - (getB L i).mov.pos).angle_between ⟨1, 0⟩) },
          fuel := s.max_fuel,
          state := ShipState.Landed i 0 } := rfl

/-- For an InSpace ship over a single body whose one-step-ahead test fires,
process_collision is exactly one land call. -/
lemma process_collision_single (s : Ship) (cb : CelestialBody) (dt : ℝ)
    (hs : s.state = ShipState.InSpace) (hc : s.check_collision 0 cb dt) :
    s.process_collision [0] [cb] dt = s.land 0 [cb] := by
  unfold Ship.process_collision
  rw [hs]
  show Ship.pcStep [cb] dt s 0 = s.land 0 [cb]
  unfold Ship.pcStep
  split
  · rfl
  · next hcontra => exact absurd (show s.check_collision 0 (getB [cb] 0) dt from hc) hcontra

/-- C2 (amended): when an InSpace ship's one-step-ahead projection hits the single
body's circle, the outcome is Landed or Destroyed, and it is Landed exactly when the
relative velocity is within the terminal bound and the code's misalignment measure
|rot % 2π - θ| (Rust remainder, not a true angular distance) is within 30 degrees. -/
theorem process_collision_landing_outcome (s : Ship) (cb : CelestialBody) (dt : ℝ)
    (hs : s.state = ShipState.InSpace) (hc : s.check_collision 0 cb dt) :
    ((s.process_collision [0] [cb] dt).state = ShipState.Landed 0 0 ∨
     (s.process_collision [0] [cb] dt).state = ShipState.Destroyed) ∧
    ((s.process_collision [0] [cb] dt).state = ShipState.Landed 0 0 ↔
      ((s.mov.vel - cb.mov.vel).length_squared ≤ TERMINAL_VELOCITY ^ 2 ∧
       |rustRem s.mov.rot (to_radians 360) -
         (-((s.mov.pos - cb.mov.pos).angle_between ⟨1, 0⟩))| ≤ to_radians 30)) := by
  rw [process_collision_single s cb dt hs hc, land_eq]
  simp only [getB_cons_zero]
  by_cases hcond : |rustRem s.mov.rot (to_radians 360) -
      (-((s.mov.pos - cb.mov.pos).angle_between ⟨1, 0⟩))| > to_radians 30 ∨
      (s.mov.vel - cb.mov.vel).length_squared > TERMINAL_VELOCITY ^ 2
  · rw [if_pos hcond]
    refine ⟨Or.inr rfl, ?_, ?_⟩
    · intro habs
      exact absurd habs (by simp)
    · rintro ⟨h1, h2⟩
      rcases hcond with hA | hB
      · exact absurd hA (not_lt.mpr h2)
      · exact absurd hB (not_lt.mpr h1)
  · rw [if_neg hcond]
    push_neg at hcond
    exact ⟨Or.inl rfl, fun _ => ⟨hcond.2, hcond.1⟩, fun _ => rfl⟩

/-- The C2 scenario body: radius 10, at rest at the origin. -/
def c2cb : CelestialBody :=
  { mov := Movable.new ⟨0, 0⟩ ⟨0, 0⟩ 1 0, radius := 10,
    cb_type := CelestialBodyType.Planet, hill_radius := 1 }

/-- The C2 scenario ship: directly above the body, at rest relative to it, with the
given heading. -/
def c2shipOf (r : ℝ) : Ship :=
  { mov := Movable.new ⟨0, 5⟩ ⟨0, 0⟩ 1 r, state := ShipState.InSpace,
    store := ShipState.InSpace, fuel := 5, max_fuel := 5, in_hill_radius_of := [] }

lemma c2_check (r : ℝ) : (c2shipOf r).check_collision 0 c2cb (1 / 50) := by
  unfold Ship.check_collision Movable.update point_in_circle Vec2.distance_squared
    Vec2.length_squared c2shipOf c2cb Movable.new SHIP_SIZE
  norm_num

lemma c2_theta (r : ℝ) :
    -(((c2shipOf r).mov.pos - c2cb.mov.pos).angle_between ⟨1, 0⟩) = Real.pi / 2 := by
  have hsub : (c2shipOf r).mov.pos - c2cb.mov.pos = (⟨0, 5⟩ : Vec2) := by
    show (⟨0, 5⟩ : Vec2) - ⟨0, 0⟩ = ⟨0, 5⟩
    ext <;> simp
  rw [hsub]
  unfold Vec2.angle_between Vec2.dot Vec2.perp_dot Vec2.length_squared
  have harg : ((0:ℝ) * 1 + 5 * 0) / Real.sqrt (((0:ℝ) * 0 + 5 * 5) * (1 * 1 + 0 * 0)) = 0 := by
    norm_num
  rw [if_pos (by norm_num : ((0:ℝ) * 0 - 5 * 1) < 0), harg, Real.arccos_zero]
  ring

/-- Witness for C2 at a concrete input: a ship heading exactly along the surface
normal, at rest relative to the body, with its projection inside the circle. -/
theorem process_collision_landing_outcome_witness :
    ((c2shipOf (Real.pi / 2)).state = ShipState.InSpace ∧
     (c2shipOf (Real.pi / 2)).check_collision 0 c2cb (1 / 50)) ∧
    ((((c2shipOf (Real.pi / 2)).process_collision [0] [c2cb] (1 / 50)).state
        = ShipState.Landed 0 0 ∨
      ((c2shipOf (Real.pi / 2)).process_collision [0] [c2cb] (1 / 50)).state
        = ShipState.Destroyed) ∧
     (((c2shipOf (Real.pi / 2)).process_collision [0] [c2cb] (1 / 50)).state
        = ShipState.Landed 0 0 ↔
       (((c2shipOf (Real.pi / 2)).mov.vel - c2cb.mov.vel).length_squared
          ≤ TERMINAL_VELOCITY ^ 2 ∧
        |rustRem (c2shipOf (Real.pi / 2)).mov.rot (to_radians 360) -
          (-(((c2shipOf (Real.pi / 2)).mov.pos - c2cb.mov.pos).angle_between ⟨1, 0⟩))|
          ≤ to_radians 30))) :=
  ⟨⟨rfl, c2_check (Real.pi / 2)⟩,
   process_collision_landing_outcome (c2shipOf (Real.pi / 2)) c2cb (1 / 50) rfl
     (c2_check (Real.pi / 2))⟩

/-- C2 counterexample: a ship heading along the surface normal expressed as
-(3π/2) — angularly identical to π/2 — at rest relative to the body, with the
projection inside the circle: the claim's conditions hold (relative velocity 0 and
true angular misalignment 0 ≤ 30°), yet the code destroys the ship, because the
Rust remainder does not reduce -(3π/2) into the comparison window. -/
theorem land_destroys_aligned_wrapped_rotation :
    (c2shipOf (-(3 * Real.pi / 2))).state = ShipState.InSpace ∧
    (c2shipOf (-(3 * Real.pi / 2))).check_collision 0 c2cb (1 / 50) ∧
    ((c2shipOf (-(3 * Real.pi / 2))).mov.vel - c2cb.mov.vel).length_squared
      ≤ TERMINAL_VELOCITY ^ 2 ∧
    spec_angular_misalignment (c2shipOf (-(3 * Real.pi / 2))).mov.rot
      (-(((c2shipOf (-(3 * Real.pi / 2))).mov.pos - c2cb.mov.pos).angle_between ⟨1, 0⟩))
      ≤ to_radians 30 ∧
    ((c2shipOf (-(3 * Real.pi / 2))).process_collision [0] [c2cb] (1 / 50)).state
      = ShipState.Destroyed := by
  have hpi := Real.pi_pos
  have h360 : to_radians 360 = 2 * Real.pi := by unfold to_radians; ring
  have h30 : to_radians 30 = Real.pi / 6 := by unfold to_radians; ring
  have hrot : (c2shipOf (-(3 * Real.pi / 2))).mov.rot = -(3 * Real.pi / 2) := rfl
  have hvel : ((c2shipOf (-(3 * Real.pi / 2))).mov.vel - c2cb.mov.vel).length_squared
      = 0 := by
    show ((⟨0, 0⟩ : Vec2) - ⟨0, 0⟩).length_squared = 0
    simp [Vec2.length_squared]
  have hrem : rustRem (-(3 * Real.pi / 2)) (2 * Real.pi) = -(3 * Real.pi / 2) := by
    unfold rustRem truncR
    have hdiv : -(3 * Real.pi / 2) / (2 * Real.pi) = -(3 / 4) := by
      rw [div_eq_iff (ne_of_gt (by positivity : (0:ℝ) < 2 * Real.pi))]
      ring
    rw [hdiv, if_neg (by norm_num)]
    have hceil : ⌈(-(3 / 4) : ℝ)⌉ = 0 := by
      rw [Int.ceil_eq_zero_iff]
      constructor <;> norm_num
    rw [hceil]
    push_cast
    ring
  have htheta := c2_theta (-(3 * Real.pi / 2))
  refine ⟨rfl, c2_check _, ?_, ?_, ?_⟩
  · rw [hvel]
    positivity
  · unfold spec_angular_misalignment
    rw [hrot, htheta]
    have hd : -(3 * Real.pi / 2) - Real.pi / 2 = -(2 * Real.pi) := by ring
    rw [hd]
    have hdiv2 : -(2 * Real.pi) / (2 * Real.pi) = -1 := by
      rw [div_eq_iff (ne_of_gt (by positivity : (0:ℝ) < 2 * Real.pi))]
      ring
    rw [hdiv2, show ((-1 : ℝ)) = ((-1 : ℤ) : ℝ) by norm_num, round_intCast]
    push_cast
    rw [show -(2 * Real.pi) - 2 * Real.pi * (-1) = (0:ℝ) by ring, abs_zero, h30]
    positivity
  · rw [process_collision_single _ c2cb (1 / 50) rfl (c2_check _), land_eq]
    simp only [getB_cons_zero]
    rw [if_pos]
    left
    rw [hrot, htheta, h360, hrem, h30]
    rw [show -(3 * Real.pi / 2) - Real.pi / 2 = -(2 * Real.pi) by ring, abs_neg,
      abs_of_nonneg (by positivity : (0:ℝ) ≤ 2 * Real.pi)]
    linarith

/- ## C3: a landed ship with zero takeoff velocity -/

lemma apply_gravity_state (s : Ship) (idxs : List ℕ) (L : List CelestialBody) (dt : ℝ) :
    (s.apply_gravity idxs L dt).1.state = s.state :=
  (@apply_gravity_pres idxs L s idxs L dt (fun _ hx => hx) (scopedEq_refl _ _)).2.1

lemma liveTickMid_ship (w : World) (dt : ℝ) :
    (liveTickMid w dt).ship
      = (w.ship.apply_gravity (List.range w.bodies.length)
          (apply_gravity_to_celestial_bodies (List.range w.bodies.length) w.bodies dt)
          dt).1.update dt := rfl

lemma liveTick_ship (w : World) (dt : ℝ) :
    (liveTick w dt).ship
      = (liveTickMid w dt).ship.process_collision (List.range w.bodies.length)
          (liveTickMid w dt).bodies dt := rfl

/-- C3 (amended): a ship in state Landed(body, 0) stays Landed on that body through
one full live tick provided the one-step-ahead projection (at the anchor-matched
velocity, zero takeoff velocity) still intersects the body's collision circle; with a
fast-moving anchor the projection can leave the circle and the ship takes off. -/
theorem landed_zero_tv_stays_landed (w : World) (i : ℕ) (dt : ℝ)
    (h1 : w.ship.state = ShipState.Landed i 0)
    (h2 : (liveTickMid w dt).ship.check_collision 0 (getB (liveTickMid w dt).bodies i) dt) :
    (liveTick w dt).ship.state = ShipState.Landed i 0 := by
  have hmidstate : (liveTickMid w dt).ship.state = ShipState.Landed i 0 := by
    rw [liveTickMid_ship]
    show (w.ship.apply_gravity (List.range w.bodies.length)
        (apply_gravity_to_celestial_bodies (List.range w.bodies.length) w.bodies dt)
        dt).1.state = ShipState.Landed i 0
    rw [apply_gravity_state]
    exact h1
  rw [liveTick_ship]
  unfold Ship.process_collision
  rw [hmidstate]
  show (if ¬ (liveTickMid w dt).ship.check_collision 0
        (getB (liveTickMid w dt).bodies i) dt
      then (liveTickMid w dt).ship.takeoff 0
      else (liveTickMid w dt).ship).state = ShipState.Landed i 0
  rw [if_neg (not_not_intro h2)]
  exact hmidstate

/-- The C3 scenario body, at rest. -/
def c3body : CelestialBody :=
  { mov := Movable.new ⟨0, 0⟩ ⟨0, 0⟩ 1 0, radius := 10,
    cb_type := CelestialBodyType.Planet, hill_radius := 1 }

/-- A world with a ship landed on c3body. -/
def c3world : World :=
  { ship := { mov := Movable.new ⟨5, 0⟩ ⟨0, 0⟩ 1 0, state := ShipState.Landed 0 0,
              store := ShipState.InSpace, fuel := 5, max_fuel := 5,
              in_hill_radius_of := [] },
    bodies := [c3body] }

lemma c3_mid : liveTickMid c3world (1 / 50)
    = { ship := Ship.update
          { c3world.ship with mov := { c3world.ship.mov with vel := ⟨0, 0⟩ } } (1 / 50),
        bodies := [c3body.update (1 / 50)] } := rfl

lemma c3_check : (liveTickMid c3world (1 / 50)).ship.check_collision 0
    (getB (liveTickMid c3world (1 / 50)).bodies 0) (1 / 50) := by
  rw [c3_mid]
  simp only [getB_cons_zero]
  unfold Ship.check_collision Ship.update CelestialBody.update Movable.update
    point_in_circle Vec2.distance_squared Vec2.length_squared c3world c3body
    Movable.new SHIP_SIZE
  simp only [Vec2.add_x, Vec2.add_y, Vec2.sub_x, Vec2.sub_y, Vec2.smul_x, Vec2.smul_y,
    Vec2.zero_x, Vec2.zero_y]
  norm_num

/-- Witness for C3 at a concrete input: a resting anchor, ship landed with zero
takeoff velocity, projection inside the circle. -/
theorem landed_zero_tv_stays_landed_witness :
    (c3world.ship.state = ShipState.Landed 0 0 ∧
     (liveTickMid c3world (1 / 50)).ship.check_collision 0
       (getB (liveTickMid c3world (1 / 50)).bodies 0) (1 / 50)) ∧
    (liveTick c3world (1 / 50)).ship.state = ShipState.Landed 0 0 :=
  ⟨⟨rfl, c3_check⟩, landed_zero_tv_stays_landed c3world 0 (1 / 50) rfl c3_check⟩

/-- The C3 counterexample body: a fast-moving anchor. -/
def c3fastbody : CelestialBody :=
  { mov := Movable.new ⟨0, 0⟩ ⟨1000, 0⟩ 1 0, radius := 10,
    cb_type := CelestialBodyType.Planet, hill_radius := 1 }

/-- A world with a ship landed (zero takeoff velocity) on the fast anchor. -/
def c3fast : World :=
  { ship := { mov := Movable.new ⟨10, 0⟩ ⟨0, 0⟩ 1 0, state := ShipState.Landed 0 0,
              store := ShipState.InSpace, fuel := 5, max_fuel := 5,
              in_hill_radius_of := [] },
    bodies := [c3fastbody] }

lemma c3fast_mid : liveTickMid c3fast (1 / 50)
    = { ship := Ship.update
          { c3fast.ship with mov := { c3fast.ship.mov with vel := ⟨1000, 0⟩ } } (1 / 50),
        bodies := [c3fastbody.update (1 / 50)] } := rfl

/-- C3 counterexample: with anchor velocity (1000, 0) and dt = 0.02, the ship's
one-step-ahead projection lies 30 units ahead of the anchor's surface, the Landed
branch sees no intersection, and the ship spontaneously lifts off to InSpace on the
very next tick, contradicting the claim's "for any anchor body velocity". -/
theorem landed_ship_lifts_off_under_fast_anchor :
    c3fast.ship.state = ShipState.Landed 0 0 ∧
    (liveTick c3fast (1 / 50)).ship.state = ShipState.InSpace := by
  refine ⟨rfl, ?_⟩
  have hnc : ¬ (liveTickMid c3fast (1 / 50)).ship.check_collision 0
      (getB (liveTickMid c3fast (1 / 50)).bodies 0) (1 / 50) := by
    rw [c3fast_mid]
    simp only [getB_cons_zero]
    unfold Ship.check_collision Ship.update CelestialBody.update Movable.update
      point_in_circle Vec2.distance_squared Vec2.length_squared c3fast c3fastbody
      Movable.new SHIP_SIZE
    simp only [Vec2.add_x, Vec2.add_y, Vec2.sub_x, Vec2.sub_y, Vec2.smul_x, Vec2.smul_y,
      Vec2.zero_x, Vec2.zero_y]
    norm_num
  have hmidstate : (liveTickMid c3fast (1 / 50)).ship.state = ShipState.Landed 0 0 := rfl
  rw [liveTick_ship]
  unfold Ship.process_collision
  rw [hmidstate]
  show (if ¬ (liveTickMid c3fast (1 / 50)).ship.check_collision 0
        (getB (liveTickMid c3fast (1 / 50)).bodies 0) (1 / 50)
      then (liveTickMid c3fast (1 / 50)).ship.takeoff 0
      else (liveTickMid c3fast (1 / 50)).ship).state = ShipState.InSpace
  rw [if_pos hnc]
  rfl

/- ## C1 counterexample: the live ship is not byte-identical after a rollout -/

lemma simLoop_succ (c : List ℕ) (dt : ℝ) (n : ℕ) (p : Ship × List CelestialBody) :
    simLoop c dt (n + 1) p
      = if (simStep c dt p).2 then (simStep c dt p).1
        else simLoop c dt n (simStep c dt p).1 := rfl

/-- The C1 scenario body: far from the ship, with a small hill radius. -/
def c1body : CelestialBody :=
  { mov := Movable.new ⟨100, 0⟩ ⟨0, 0⟩ 1 0, radius := 1,
    cb_type := CelestialBodyType.Planet, hill_radius := 1 }

/-- The C1 scenario ship: InSpace at the origin, its influencer list holding body 0,
its kinematic checkpoint slot holding a stale value from an earlier save. -/
def c1ship : Ship :=
  { mov := { pos := ⟨0, 0⟩, vel := ⟨0, 0⟩, mass := 1, rot := 0,
             store := (⟨1, 1⟩, ⟨1, 1⟩, 1) },
    state := ShipState.InSpace, store := ShipState.InSpace, fuel := 5, max_fuel := 5,
    in_hill_radius_of := [0] }

/-- The C1 scenario world. -/
def c1world : World := { ship := c1ship, bodies := [c1body] }

lemma c1_nophill :
    ¬ (bodySave c1body).pos_in_hill_radius c1world.ship.save.mov.pos := by
  unfold CelestialBody.pos_in_hill_radius point_in_circle Vec2.distance_squared
    Vec2.length_squared bodySave c1body c1world c1ship Ship.save Movable.save
    Movable.new MAJOR_CB_HILL_RADIUS_COEFICIENT
  simp only [Vec2.sub_x, Vec2.sub_y]
  norm_num

lemma c1_ag : Ship.apply_gravity c1world.ship.save [0] [bodySave c1body] (1 / 2)
    = ({ c1world.ship.save with in_hill_radius_of := [] }, [bodySave c1body]) := by
  show [0].foldl (Ship.agStep (1 / 2))
      ({ c1world.ship.save with in_hill_radius_of := [] }, [bodySave c1body])
    = ({ c1world.ship.save with in_hill_radius_of := [] }, [bodySave c1body])
  rw [List.foldl_cons, List.foldl_nil]
  unfold Ship.agStep
  dsimp only [getB_cons_zero]
  rw [if_neg c1_nophill]

lemma c1_nocol :
    ¬ (Ship.update { c1world.ship.save with in_hill_radius_of := [] } (1 / 2)).check_collision
        0 (getB [(bodySave c1body).update (1 / 2)] 0) PHYSICS_STEP := by
  simp only [getB_cons_zero]
  unfold Ship.check_collision Ship.update CelestialBody.update Movable.update
    point_in_circle Vec2.distance_squared Vec2.length_squared bodySave c1body c1world
    c1ship Ship.save Movable.save SHIP_SIZE PHYSICS_STEP Movable.new
  simp only [Vec2.add_x, Vec2.add_y, Vec2.sub_x, Vec2.sub_y, Vec2.smul_x, Vec2.smul_y,
    Vec2.zero_x, Vec2.zero_y]
  norm_num

lemma c1_find : findHit (Ship.update { c1world.ship.save with in_hill_radius_of := [] } (1 / 2))
    [(bodySave c1body).update (1 / 2)] [0] = none := by
  show (if (Ship.update { c1world.ship.save with in_hill_radius_of := [] } (1 / 2)).check_collision
        0 (getB [(bodySave c1body).update (1 / 2)] 0) PHYSICS_STEP then some 0
      else findHit (Ship.update { c1world.ship.save with in_hill_radius_of := [] } (1 / 2))
        [(bodySave c1body).update (1 / 2)] []) = none
  rw [if_neg c1_nocol]
  rfl

lemma c1_step : simStep [0] (1 / 2) (c1world.ship.save, [bodySave c1body])
    = ((Ship.update { c1world.ship.save with in_hill_radius_of := [] } (1 / 2),
        [(bodySave c1body).update (1 / 2)]), false) := by
  have hstep : simStep [0] (1 / 2) (c1world.ship.save, [bodySave c1body])
      = (match findHit (Ship.update { c1world.ship.save with in_hill_radius_of := [] } (1 / 2))
            [(bodySave c1body).update (1 / 2)] [0] with
         | some j =>
             (({ Ship.update { c1world.ship.save with in_hill_radius_of := [] } (1 / 2) with
                  state := ShipState.Landed j 0 },
               [(bodySave c1body).update (1 / 2)]), true)
         | none =>
             ((Ship.update { c1world.ship.save with in_hill_radius_of := [] } (1 / 2),
               [(bodySave c1body).update (1 / 2)]), false)) := by
    unfold simStep
    dsimp only
    rw [show apply_gravity_to_celestial_bodies [0] [bodySave c1body] (1 / 2)
        = [bodySave c1body] from rfl]
    rw [c1_ag]
    rfl
  rw [hstep, c1_find]

/-- The predictor run on the C1 world, reduced to explicit load-after-save form. -/
lemma c1_sim : simulate_hill_radius c1world 1 (1 / 2)
    = { ship := Ship.load (Ship.update { c1world.ship.save with in_hill_radius_of := [] } (1 / 2)),
        bodies := loadBodiesAt [0] [(bodySave c1body).update (1 / 2)] } := by
  show ({ ship := (simLoop [0] (1 / 2) 1 (c1world.ship.save, saveBodiesAt [0] c1world.bodies)).1.load,
          bodies := loadBodiesAt [0]
            (simLoop [0] (1 / 2) 1 (c1world.ship.save, saveBodiesAt [0] c1world.bodies)).2 } : World)
    = _
  rw [show saveBodiesAt [0] c1world.bodies = [bodySave c1body] from rfl]
  rw [simLoop_succ, c1_step]
  rfl

/-- C1 counterexample: after one predictor invocation on the C1 world (no impact, no
influence, one iteration) the live ship is not byte-identical to its pre-invocation
value: its influencer list was emptied by the rollout's hill-sphere scan and its
kinematic checkpoint slot was overwritten by the rollout's save. -/
theorem simulate_hill_radius_not_byte_identical :
    c1world.ship.in_hill_radius_of = [0] ∧
    (simulate_hill_radius c1world 1 (1 / 2)).ship.in_hill_radius_of = [] ∧
    (simulate_hill_radius c1world 1 (1 / 2)).ship.mov.store ≠ c1world.ship.mov.store ∧
    (simulate_hill_radius c1world 1 (1 / 2)).ship ≠ c1world.ship := by
  refine ⟨rfl, ?_, ?_, ?_⟩
  · rw [c1_sim]
    rfl
  · rw [c1_sim]
    intro h
    have hx : (0 : ℝ) = 1 := congrArg (fun t => t.1.x) h
    norm_num at hx
  · rw [c1_sim]
    intro h
    have hi : ([] : List ℕ) = [0] := congrArg Ship.in_hill_radius_of h
    simp at hi

end

